import Mathlib

/-!
Verification development for the sopel spelling-correction plugin
(`sopel/builtins/find.py`) and the identifier-keyed memory substrate it
relies on.  Python strings become Lean `String`/`List Char`; the mutable
two-level store (channel → speaker → bounded deque) becomes an explicit
association-list state threaded through the operations; `None`-able values
become `Option`.
-/

namespace Sopel

/-- Modelled from the spec: the Identifier casemapping fold (rfc1459 mode) of
a single character — ASCII uppercase letters are lowered, and the rfc1459
extras fold the bracket characters and tilde onto their shifted partners.
The identifiers module itself is not among the provided source files; this
follows the spec, §3 "Identifier" and §4.1. -/
def foldChar (c : Char) : Char :=
  if 'A' ≤ c ∧ c ≤ 'Z' then Char.ofNat (c.toNat + 32)
  else if c = '[' then '{'
  else if c = ']' then '}'
  else if c = '\\' then '|'
  else if c = '~' then '^'
  else c

/-- Modelled from the spec: the fold of a whole identifier string (§4.1:
`fold(text, mode)` deterministically lowercases per the mode's table). -/
def fold1459 (s : String) : String := ⟨s.data.map foldChar⟩

/-- Modelled from the spec: an Identifier is a string wrapper whose equality
routes through the fold (§3).  Lookup helpers below accept either form. -/
structure Identifier where
  text : String
deriving DecidableEq, Repr

/-- Modelled from the spec: an Identifier-Keyed Mapping is an ordered
key→value store whose keys compare case-folded while the stored casing is
retained for display (§3, §4.2).  The memories module itself is not among
the provided source files. -/
abbrev IdMemory (V : Type) : Type := List (String × V)

/-- Modelled from the spec, §4.2 `set(key, value)`: if the folded key is
already present the value is replaced without altering the stored casing;
otherwise the pair is appended with the casing as given. -/
def memSet {V : Type} (m : IdMemory V) (k : String) (v : V) : IdMemory V :=
  if (m : List (String × V)).any (fun p => fold1459 p.1 = fold1459 k) then
    (m : List (String × V)).map
      (fun p => if fold1459 p.1 = fold1459 k then (p.1, v) else p)
  else (m : List (String × V)) ++ [(k, v)]

/-- Modelled from the spec, §4.2 `get(key, default=None)`: the probe key is
folded before comparison; absent keys yield `none`, never an error. -/
def memGet {V : Type} (m : IdMemory V) (k : String) : Option V :=
  ((m : List (String × V)).find? (fun p => fold1459 p.1 = fold1459 k)).map Prod.snd

/-- Modelled from the spec, §4.2 `contains(key)`: true iff the folded key is
present; a `None` probe yields `False`, never an error. -/
def memContains {V : Type} (m : IdMemory V) : Option String → Bool
  | none => false
  | some k => (m : List (String × V)).any (fun p => fold1459 p.1 = fold1459 k)

/-- Probing the mapping with an Identifier rather than a plain string: the
Identifier's text goes through the same fold (spec §4.1: comparison against
plain strings folds with the Identifier's own mode). -/
def memGetId {V : Type} (m : IdMemory V) (i : Identifier) : Option V :=
  memGet m i.text

/-- Containment probe with an Identifier key. -/
def memContainsId {V : Type} (m : IdMemory V) (i : Identifier) : Bool :=
  memContains m (some i.text)

/-- Modelled from the spec: `sopel.formatting.bold` (not among the provided
source files) wraps text in the IRC bold control character, the emphasis
formatting the spec's §4.4 step 4 refers to. -/
def bold (s : String) : String := "\x02" ++ s ++ "\x02"

/-- Strip the emphasis (bold) control characters from a string; used to
state expected texts the way the spec prints them, emphasis aside. -/
def stripEmph (s : String) : String := ⟨s.data.filter (fun c => c ≠ '\x02')⟩

set_option maxHeartbeats 2000000 in
/-- Modelled from CPython: the code points (beyond ASCII) whose Unicode
simple lowercase mapping differs from themselves, paired with that
mapping — the folding `_sre.unicode_tolower` applies when a pattern is
compiled and matched under `re.I | re.U` (find.py line 184).  Generated
from the interpreter's own `_sre.unicode_tolower` over the whole
code-point range. -/
def uniLowerTable : List (Nat × Nat) := [
  (0xc0, 0xe0), (0xc1, 0xe1), (0xc2, 0xe2), (0xc3, 0xe3), (0xc4, 0xe4), (0xc5, 0xe5),
  (0xc6, 0xe6), (0xc7, 0xe7), (0xc8, 0xe8), (0xc9, 0xe9), (0xca, 0xea), (0xcb, 0xeb),
  (0xcc, 0xec), (0xcd, 0xed), (0xce, 0xee), (0xcf, 0xef), (0xd0, 0xf0), (0xd1, 0xf1),
  (0xd2, 0xf2), (0xd3, 0xf3), (0xd4, 0xf4), (0xd5, 0xf5), (0xd6, 0xf6), (0xd8, 0xf8),
  (0xd9, 0xf9), (0xda, 0xfa), (0xdb, 0xfb), (0xdc, 0xfc), (0xdd, 0xfd), (0xde, 0xfe),
  (0x100, 0x101), (0x102, 0x103), (0x104, 0x105), (0x106, 0x107), (0x108, 0x109), (0x10a, 0x10b),
  (0x10c, 0x10d), (0x10e, 0x10f), (0x110, 0x111), (0x112, 0x113), (0x114, 0x115), (0x116, 0x117),
  (0x118, 0x119), (0x11a, 0x11b), (0x11c, 0x11d), (0x11e, 0x11f), (0x120, 0x121), (0x122, 0x123),
  (0x124, 0x125), (0x126, 0x127), (0x128, 0x129), (0x12a, 0x12b), (0x12c, 0x12d), (0x12e, 0x12f),
  (0x130, 0x69), (0x132, 0x133), (0x134, 0x135), (0x136, 0x137), (0x139, 0x13a), (0x13b, 0x13c),
  (0x13d, 0x13e), (0x13f, 0x140), (0x141, 0x142), (0x143, 0x144), (0x145, 0x146), (0x147, 0x148),
  (0x14a, 0x14b), (0x14c, 0x14d), (0x14e, 0x14f), (0x150, 0x151), (0x152, 0x153), (0x154, 0x155),
  (0x156, 0x157), (0x158, 0x159), (0x15a, 0x15b), (0x15c, 0x15d), (0x15e, 0x15f), (0x160, 0x161),
  (0x162, 0x163), (0x164, 0x165), (0x166, 0x167), (0x168, 0x169), (0x16a, 0x16b), (0x16c, 0x16d),
  (0x16e, 0x16f), (0x170, 0x171), (0x172, 0x173), (0x174, 0x175), (0x176, 0x177), (0x178, 0xff),
  (0x179, 0x17a), (0x17b, 0x17c), (0x17d, 0x17e), (0x181, 0x253), (0x182, 0x183), (0x184, 0x185),
  (0x186, 0x254), (0x187, 0x188), (0x189, 0x256), (0x18a, 0x257), (0x18b, 0x18c), (0x18e, 0x1dd),
  (0x18f, 0x259), (0x190, 0x25b), (0x191, 0x192), (0x193, 0x260), (0x194, 0x263), (0x196, 0x269),
  (0x197, 0x268), (0x198, 0x199), (0x19c, 0x26f), (0x19d, 0x272), (0x19f, 0x275), (0x1a0, 0x1a1),
  (0x1a2, 0x1a3), (0x1a4, 0x1a5), (0x1a6, 0x280), (0x1a7, 0x1a8), (0x1a9, 0x283), (0x1ac, 0x1ad),
  (0x1ae, 0x288), (0x1af, 0x1b0), (0x1b1, 0x28a), (0x1b2, 0x28b), (0x1b3, 0x1b4), (0x1b5, 0x1b6),
  (0x1b7, 0x292), (0x1b8, 0x1b9), (0x1bc, 0x1bd), (0x1c4, 0x1c6), (0x1c5, 0x1c6), (0x1c7, 0x1c9),
  (0x1c8, 0x1c9), (0x1ca, 0x1cc), (0x1cb, 0x1cc), (0x1cd, 0x1ce), (0x1cf, 0x1d0), (0x1d1, 0x1d2),
  (0x1d3, 0x1d4), (0x1d5, 0x1d6), (0x1d7, 0x1d8), (0x1d9, 0x1da), (0x1db, 0x1dc), (0x1de, 0x1df),
  (0x1e0, 0x1e1), (0x1e2, 0x1e3), (0x1e4, 0x1e5), (0x1e6, 0x1e7), (0x1e8, 0x1e9), (0x1ea, 0x1eb),
  (0x1ec, 0x1ed), (0x1ee, 0x1ef), (0x1f1, 0x1f3), (0x1f2, 0x1f3), (0x1f4, 0x1f5), (0x1f6, 0x195),
  (0x1f7, 0x1bf), (0x1f8, 0x1f9), (0x1fa, 0x1fb), (0x1fc, 0x1fd), (0x1fe, 0x1ff), (0x200, 0x201),
  (0x202, 0x203), (0x204, 0x205), (0x206, 0x207), (0x208, 0x209), (0x20a, 0x20b), (0x20c, 0x20d),
  (0x20e, 0x20f), (0x210, 0x211), (0x212, 0x213), (0x214, 0x215), (0x216, 0x217), (0x218, 0x219),
  (0x21a, 0x21b), (0x21c, 0x21d), (0x21e, 0x21f), (0x220, 0x19e), (0x222, 0x223), (0x224, 0x225),
  (0x226, 0x227), (0x228, 0x229), (0x22a, 0x22b), (0x22c, 0x22d), (0x22e, 0x22f), (0x230, 0x231),
  (0x232, 0x233), (0x23a, 0x2c65), (0x23b, 0x23c), (0x23d, 0x19a), (0x23e, 0x2c66), (0x241, 0x242),
  (0x243, 0x180), (0x244, 0x289), (0x245, 0x28c), (0x246, 0x247), (0x248, 0x249), (0x24a, 0x24b),
  (0x24c, 0x24d), (0x24e, 0x24f), (0x370, 0x371), (0x372, 0x373), (0x376, 0x377), (0x37f, 0x3f3),
  (0x386, 0x3ac), (0x388, 0x3ad), (0x389, 0x3ae), (0x38a, 0x3af), (0x38c, 0x3cc), (0x38e, 0x3cd),
  (0x38f, 0x3ce), (0x391, 0x3b1), (0x392, 0x3b2), (0x393, 0x3b3), (0x394, 0x3b4), (0x395, 0x3b5),
  (0x396, 0x3b6), (0x397, 0x3b7), (0x398, 0x3b8), (0x399, 0x3b9), (0x39a, 0x3ba), (0x39b, 0x3bb),
  (0x39c, 0x3bc), (0x39d, 0x3bd), (0x39e, 0x3be), (0x39f, 0x3bf), (0x3a0, 0x3c0), (0x3a1, 0x3c1),
  (0x3a3, 0x3c3), (0x3a4, 0x3c4), (0x3a5, 0x3c5), (0x3a6, 0x3c6), (0x3a7, 0x3c7), (0x3a8, 0x3c8),
  (0x3a9, 0x3c9), (0x3aa, 0x3ca), (0x3ab, 0x3cb), (0x3cf, 0x3d7), (0x3d8, 0x3d9), (0x3da, 0x3db),
  (0x3dc, 0x3dd), (0x3de, 0x3df), (0x3e0, 0x3e1), (0x3e2, 0x3e3), (0x3e4, 0x3e5), (0x3e6, 0x3e7),
  (0x3e8, 0x3e9), (0x3ea, 0x3eb), (0x3ec, 0x3ed), (0x3ee, 0x3ef), (0x3f4, 0x3b8), (0x3f7, 0x3f8),
  (0x3f9, 0x3f2), (0x3fa, 0x3fb), (0x3fd, 0x37b), (0x3fe, 0x37c), (0x3ff, 0x37d), (0x400, 0x450),
  (0x401, 0x451), (0x402, 0x452), (0x403, 0x453), (0x404, 0x454), (0x405, 0x455), (0x406, 0x456),
  (0x407, 0x457), (0x408, 0x458), (0x409, 0x459), (0x40a, 0x45a), (0x40b, 0x45b), (0x40c, 0x45c),
  (0x40d, 0x45d), (0x40e, 0x45e), (0x40f, 0x45f), (0x410, 0x430), (0x411, 0x431), (0x412, 0x432),
  (0x413, 0x433), (0x414, 0x434), (0x415, 0x435), (0x416, 0x436), (0x417, 0x437), (0x418, 0x438),
  (0x419, 0x439), (0x41a, 0x43a), (0x41b, 0x43b), (0x41c, 0x43c), (0x41d, 0x43d), (0x41e, 0x43e),
  (0x41f, 0x43f), (0x420, 0x440), (0x421, 0x441), (0x422, 0x442), (0x423, 0x443), (0x424, 0x444),
  (0x425, 0x445), (0x426, 0x446), (0x427, 0x447), (0x428, 0x448), (0x429, 0x449), (0x42a, 0x44a),
  (0x42b, 0x44b), (0x42c, 0x44c), (0x42d, 0x44d), (0x42e, 0x44e), (0x42f, 0x44f), (0x460, 0x461),
  (0x462, 0x463), (0x464, 0x465), (0x466, 0x467), (0x468, 0x469), (0x46a, 0x46b), (0x46c, 0x46d),
  (0x46e, 0x46f), (0x470, 0x471), (0x472, 0x473), (0x474, 0x475), (0x476, 0x477), (0x478, 0x479),
  (0x47a, 0x47b), (0x47c, 0x47d), (0x47e, 0x47f), (0x480, 0x481), (0x48a, 0x48b), (0x48c, 0x48d),
  (0x48e, 0x48f), (0x490, 0x491), (0x492, 0x493), (0x494, 0x495), (0x496, 0x497), (0x498, 0x499),
  (0x49a, 0x49b), (0x49c, 0x49d), (0x49e, 0x49f), (0x4a0, 0x4a1), (0x4a2, 0x4a3), (0x4a4, 0x4a5),
  (0x4a6, 0x4a7), (0x4a8, 0x4a9), (0x4aa, 0x4ab), (0x4ac, 0x4ad), (0x4ae, 0x4af), (0x4b0, 0x4b1),
  (0x4b2, 0x4b3), (0x4b4, 0x4b5), (0x4b6, 0x4b7), (0x4b8, 0x4b9), (0x4ba, 0x4bb), (0x4bc, 0x4bd),
  (0x4be, 0x4bf), (0x4c0, 0x4cf), (0x4c1, 0x4c2), (0x4c3, 0x4c4), (0x4c5, 0x4c6), (0x4c7, 0x4c8),
  (0x4c9, 0x4ca), (0x4cb, 0x4cc), (0x4cd, 0x4ce), (0x4d0, 0x4d1), (0x4d2, 0x4d3), (0x4d4, 0x4d5),
  (0x4d6, 0x4d7), (0x4d8, 0x4d9), (0x4da, 0x4db), (0x4dc, 0x4dd), (0x4de, 0x4df), (0x4e0, 0x4e1),
  (0x4e2, 0x4e3), (0x4e4, 0x4e5), (0x4e6, 0x4e7), (0x4e8, 0x4e9), (0x4ea, 0x4eb), (0x4ec, 0x4ed),
  (0x4ee, 0x4ef), (0x4f0, 0x4f1), (0x4f2, 0x4f3), (0x4f4, 0x4f5), (0x4f6, 0x4f7), (0x4f8, 0x4f9),
  (0x4fa, 0x4fb), (0x4fc, 0x4fd), (0x4fe, 0x4ff), (0x500, 0x501), (0x502, 0x503), (0x504, 0x505),
  (0x506, 0x507), (0x508, 0x509), (0x50a, 0x50b), (0x50c, 0x50d), (0x50e, 0x50f), (0x510, 0x511),
  (0x512, 0x513), (0x514, 0x515), (0x516, 0x517), (0x518, 0x519), (0x51a, 0x51b), (0x51c, 0x51d),
  (0x51e, 0x51f), (0x520, 0x521), (0x522, 0x523), (0x524, 0x525), (0x526, 0x527), (0x528, 0x529),
  (0x52a, 0x52b), (0x52c, 0x52d), (0x52e, 0x52f), (0x531, 0x561), (0x532, 0x562), (0x533, 0x563),
  (0x534, 0x564), (0x535, 0x565), (0x536, 0x566), (0x537, 0x567), (0x538, 0x568), (0x539, 0x569),
  (0x53a, 0x56a), (0x53b, 0x56b), (0x53c, 0x56c), (0x53d, 0x56d), (0x53e, 0x56e), (0x53f, 0x56f),
  (0x540, 0x570), (0x541, 0x571), (0x542, 0x572), (0x543, 0x573), (0x544, 0x574), (0x545, 0x575),
  (0x546, 0x576), (0x547, 0x577), (0x548, 0x578), (0x549, 0x579), (0x54a, 0x57a), (0x54b, 0x57b),
  (0x54c, 0x57c), (0x54d, 0x57d), (0x54e, 0x57e), (0x54f, 0x57f), (0x550, 0x580), (0x551, 0x581),
  (0x552, 0x582), (0x553, 0x583), (0x554, 0x584), (0x555, 0x585), (0x556, 0x586), (0x10a0, 0x2d00),
  (0x10a1, 0x2d01), (0x10a2, 0x2d02), (0x10a3, 0x2d03), (0x10a4, 0x2d04), (0x10a5, 0x2d05), (0x10a6, 0x2d06),
  (0x10a7, 0x2d07), (0x10a8, 0x2d08), (0x10a9, 0x2d09), (0x10aa, 0x2d0a), (0x10ab, 0x2d0b), (0x10ac, 0x2d0c),
  (0x10ad, 0x2d0d), (0x10ae, 0x2d0e), (0x10af, 0x2d0f), (0x10b0, 0x2d10), (0x10b1, 0x2d11), (0x10b2, 0x2d12),
  (0x10b3, 0x2d13), (0x10b4, 0x2d14), (0x10b5, 0x2d15), (0x10b6, 0x2d16), (0x10b7, 0x2d17), (0x10b8, 0x2d18),
  (0x10b9, 0x2d19), (0x10ba, 0x2d1a), (0x10bb, 0x2d1b), (0x10bc, 0x2d1c), (0x10bd, 0x2d1d), (0x10be, 0x2d1e),
  (0x10bf, 0x2d1f), (0x10c0, 0x2d20), (0x10c1, 0x2d21), (0x10c2, 0x2d22), (0x10c3, 0x2d23), (0x10c4, 0x2d24),
  (0x10c5, 0x2d25), (0x10c7, 0x2d27), (0x10cd, 0x2d2d), (0x13a0, 0xab70), (0x13a1, 0xab71), (0x13a2, 0xab72),
  (0x13a3, 0xab73), (0x13a4, 0xab74), (0x13a5, 0xab75), (0x13a6, 0xab76), (0x13a7, 0xab77), (0x13a8, 0xab78),
  (0x13a9, 0xab79), (0x13aa, 0xab7a), (0x13ab, 0xab7b), (0x13ac, 0xab7c), (0x13ad, 0xab7d), (0x13ae, 0xab7e),
  (0x13af, 0xab7f), (0x13b0, 0xab80), (0x13b1, 0xab81), (0x13b2, 0xab82), (0x13b3, 0xab83), (0x13b4, 0xab84),
  (0x13b5, 0xab85), (0x13b6, 0xab86), (0x13b7, 0xab87), (0x13b8, 0xab88), (0x13b9, 0xab89), (0x13ba, 0xab8a),
  (0x13bb, 0xab8b), (0x13bc, 0xab8c), (0x13bd, 0xab8d), (0x13be, 0xab8e), (0x13bf, 0xab8f), (0x13c0, 0xab90),
  (0x13c1, 0xab91), (0x13c2, 0xab92), (0x13c3, 0xab93), (0x13c4, 0xab94), (0x13c5, 0xab95), (0x13c6, 0xab96),
  (0x13c7, 0xab97), (0x13c8, 0xab98), (0x13c9, 0xab99), (0x13ca, 0xab9a), (0x13cb, 0xab9b), (0x13cc, 0xab9c),
  (0x13cd, 0xab9d), (0x13ce, 0xab9e), (0x13cf, 0xab9f), (0x13d0, 0xaba0), (0x13d1, 0xaba1), (0x13d2, 0xaba2),
  (0x13d3, 0xaba3), (0x13d4, 0xaba4), (0x13d5, 0xaba5), (0x13d6, 0xaba6), (0x13d7, 0xaba7), (0x13d8, 0xaba8),
  (0x13d9, 0xaba9), (0x13da, 0xabaa), (0x13db, 0xabab), (0x13dc, 0xabac), (0x13dd, 0xabad), (0x13de, 0xabae),
  (0x13df, 0xabaf), (0x13e0, 0xabb0), (0x13e1, 0xabb1), (0x13e2, 0xabb2), (0x13e3, 0xabb3), (0x13e4, 0xabb4),
  (0x13e5, 0xabb5), (0x13e6, 0xabb6), (0x13e7, 0xabb7), (0x13e8, 0xabb8), (0x13e9, 0xabb9), (0x13ea, 0xabba),
  (0x13eb, 0xabbb), (0x13ec, 0xabbc), (0x13ed, 0xabbd), (0x13ee, 0xabbe), (0x13ef, 0xabbf), (0x13f0, 0x13f8),
  (0x13f1, 0x13f9), (0x13f2, 0x13fa), (0x13f3, 0x13fb), (0x13f4, 0x13fc), (0x13f5, 0x13fd), (0x1c90, 0x10d0),
  (0x1c91, 0x10d1), (0x1c92, 0x10d2), (0x1c93, 0x10d3), (0x1c94, 0x10d4), (0x1c95, 0x10d5), (0x1c96, 0x10d6),
  (0x1c97, 0x10d7), (0x1c98, 0x10d8), (0x1c99, 0x10d9), (0x1c9a, 0x10da), (0x1c9b, 0x10db), (0x1c9c, 0x10dc),
  (0x1c9d, 0x10dd), (0x1c9e, 0x10de), (0x1c9f, 0x10df), (0x1ca0, 0x10e0), (0x1ca1, 0x10e1), (0x1ca2, 0x10e2),
  (0x1ca3, 0x10e3), (0x1ca4, 0x10e4), (0x1ca5, 0x10e5), (0x1ca6, 0x10e6), (0x1ca7, 0x10e7), (0x1ca8, 0x10e8),
  (0x1ca9, 0x10e9), (0x1caa, 0x10ea), (0x1cab, 0x10eb), (0x1cac, 0x10ec), (0x1cad, 0x10ed), (0x1cae, 0x10ee),
  (0x1caf, 0x10ef), (0x1cb0, 0x10f0), (0x1cb1, 0x10f1), (0x1cb2, 0x10f2), (0x1cb3, 0x10f3), (0x1cb4, 0x10f4),
  (0x1cb5, 0x10f5), (0x1cb6, 0x10f6), (0x1cb7, 0x10f7), (0x1cb8, 0x10f8), (0x1cb9, 0x10f9), (0x1cba, 0x10fa),
  (0x1cbd, 0x10fd), (0x1cbe, 0x10fe), (0x1cbf, 0x10ff), (0x1e00, 0x1e01), (0x1e02, 0x1e03), (0x1e04, 0x1e05),
  (0x1e06, 0x1e07), (0x1e08, 0x1e09), (0x1e0a, 0x1e0b), (0x1e0c, 0x1e0d), (0x1e0e, 0x1e0f), (0x1e10, 0x1e11),
  (0x1e12, 0x1e13), (0x1e14, 0x1e15), (0x1e16, 0x1e17), (0x1e18, 0x1e19), (0x1e1a, 0x1e1b), (0x1e1c, 0x1e1d),
  (0x1e1e, 0x1e1f), (0x1e20, 0x1e21), (0x1e22, 0x1e23), (0x1e24, 0x1e25), (0x1e26, 0x1e27), (0x1e28, 0x1e29),
  (0x1e2a, 0x1e2b), (0x1e2c, 0x1e2d), (0x1e2e, 0x1e2f), (0x1e30, 0x1e31), (0x1e32, 0x1e33), (0x1e34, 0x1e35),
  (0x1e36, 0x1e37), (0x1e38, 0x1e39), (0x1e3a, 0x1e3b), (0x1e3c, 0x1e3d), (0x1e3e, 0x1e3f), (0x1e40, 0x1e41),
  (0x1e42, 0x1e43), (0x1e44, 0x1e45), (0x1e46, 0x1e47), (0x1e48, 0x1e49), (0x1e4a, 0x1e4b), (0x1e4c, 0x1e4d),
  (0x1e4e, 0x1e4f), (0x1e50, 0x1e51), (0x1e52, 0x1e53), (0x1e54, 0x1e55), (0x1e56, 0x1e57), (0x1e58, 0x1e59),
  (0x1e5a, 0x1e5b), (0x1e5c, 0x1e5d), (0x1e5e, 0x1e5f), (0x1e60, 0x1e61), (0x1e62, 0x1e63), (0x1e64, 0x1e65),
  (0x1e66, 0x1e67), (0x1e68, 0x1e69), (0x1e6a, 0x1e6b), (0x1e6c, 0x1e6d), (0x1e6e, 0x1e6f), (0x1e70, 0x1e71),
  (0x1e72, 0x1e73), (0x1e74, 0x1e75), (0x1e76, 0x1e77), (0x1e78, 0x1e79), (0x1e7a, 0x1e7b), (0x1e7c, 0x1e7d),
  (0x1e7e, 0x1e7f), (0x1e80, 0x1e81), (0x1e82, 0x1e83), (0x1e84, 0x1e85), (0x1e86, 0x1e87), (0x1e88, 0x1e89),
  (0x1e8a, 0x1e8b), (0x1e8c, 0x1e8d), (0x1e8e, 0x1e8f), (0x1e90, 0x1e91), (0x1e92, 0x1e93), (0x1e94, 0x1e95),
  (0x1e9e, 0xdf), (0x1ea0, 0x1ea1), (0x1ea2, 0x1ea3), (0x1ea4, 0x1ea5), (0x1ea6, 0x1ea7), (0x1ea8, 0x1ea9),
  (0x1eaa, 0x1eab), (0x1eac, 0x1ead), (0x1eae, 0x1eaf), (0x1eb0, 0x1eb1), (0x1eb2, 0x1eb3), (0x1eb4, 0x1eb5),
  (0x1eb6, 0x1eb7), (0x1eb8, 0x1eb9), (0x1eba, 0x1ebb), (0x1ebc, 0x1ebd), (0x1ebe, 0x1ebf), (0x1ec0, 0x1ec1),
  (0x1ec2, 0x1ec3), (0x1ec4, 0x1ec5), (0x1ec6, 0x1ec7), (0x1ec8, 0x1ec9), (0x1eca, 0x1ecb), (0x1ecc, 0x1ecd),
  (0x1ece, 0x1ecf), (0x1ed0, 0x1ed1), (0x1ed2, 0x1ed3), (0x1ed4, 0x1ed5), (0x1ed6, 0x1ed7), (0x1ed8, 0x1ed9),
  (0x1eda, 0x1edb), (0x1edc, 0x1edd), (0x1ede, 0x1edf), (0x1ee0, 0x1ee1), (0x1ee2, 0x1ee3), (0x1ee4, 0x1ee5),
  (0x1ee6, 0x1ee7), (0x1ee8, 0x1ee9), (0x1eea, 0x1eeb), (0x1eec, 0x1eed), (0x1eee, 0x1eef), (0x1ef0, 0x1ef1),
  (0x1ef2, 0x1ef3), (0x1ef4, 0x1ef5), (0x1ef6, 0x1ef7), (0x1ef8, 0x1ef9), (0x1efa, 0x1efb), (0x1efc, 0x1efd),
  (0x1efe, 0x1eff), (0x1f08, 0x1f00), (0x1f09, 0x1f01), (0x1f0a, 0x1f02), (0x1f0b, 0x1f03), (0x1f0c, 0x1f04),
  (0x1f0d, 0x1f05), (0x1f0e, 0x1f06), (0x1f0f, 0x1f07), (0x1f18, 0x1f10), (0x1f19, 0x1f11), (0x1f1a, 0x1f12),
  (0x1f1b, 0x1f13), (0x1f1c, 0x1f14), (0x1f1d, 0x1f15), (0x1f28, 0x1f20), (0x1f29, 0x1f21), (0x1f2a, 0x1f22),
  (0x1f2b, 0x1f23), (0x1f2c, 0x1f24), (0x1f2d, 0x1f25), (0x1f2e, 0x1f26), (0x1f2f, 0x1f27), (0x1f38, 0x1f30),
  (0x1f39, 0x1f31), (0x1f3a, 0x1f32), (0x1f3b, 0x1f33), (0x1f3c, 0x1f34), (0x1f3d, 0x1f35), (0x1f3e, 0x1f36),
  (0x1f3f, 0x1f37), (0x1f48, 0x1f40), (0x1f49, 0x1f41), (0x1f4a, 0x1f42), (0x1f4b, 0x1f43), (0x1f4c, 0x1f44),
  (0x1f4d, 0x1f45), (0x1f59, 0x1f51), (0x1f5b, 0x1f53), (0x1f5d, 0x1f55), (0x1f5f, 0x1f57), (0x1f68, 0x1f60),
  (0x1f69, 0x1f61), (0x1f6a, 0x1f62), (0x1f6b, 0x1f63), (0x1f6c, 0x1f64), (0x1f6d, 0x1f65), (0x1f6e, 0x1f66),
  (0x1f6f, 0x1f67), (0x1f88, 0x1f80), (0x1f89, 0x1f81), (0x1f8a, 0x1f82), (0x1f8b, 0x1f83), (0x1f8c, 0x1f84),
  (0x1f8d, 0x1f85), (0x1f8e, 0x1f86), (0x1f8f, 0x1f87), (0x1f98, 0x1f90), (0x1f99, 0x1f91), (0x1f9a, 0x1f92),
  (0x1f9b, 0x1f93), (0x1f9c, 0x1f94), (0x1f9d, 0x1f95), (0x1f9e, 0x1f96), (0x1f9f, 0x1f97), (0x1fa8, 0x1fa0),
  (0x1fa9, 0x1fa1), (0x1faa, 0x1fa2), (0x1fab, 0x1fa3), (0x1fac, 0x1fa4), (0x1fad, 0x1fa5), (0x1fae, 0x1fa6),
  (0x1faf, 0x1fa7), (0x1fb8, 0x1fb0), (0x1fb9, 0x1fb1), (0x1fba, 0x1f70), (0x1fbb, 0x1f71), (0x1fbc, 0x1fb3),
  (0x1fc8, 0x1f72), (0x1fc9, 0x1f73), (0x1fca, 0x1f74), (0x1fcb, 0x1f75), (0x1fcc, 0x1fc3), (0x1fd8, 0x1fd0),
  (0x1fd9, 0x1fd1), (0x1fda, 0x1f76), (0x1fdb, 0x1f77), (0x1fe8, 0x1fe0), (0x1fe9, 0x1fe1), (0x1fea, 0x1f7a),
  (0x1feb, 0x1f7b), (0x1fec, 0x1fe5), (0x1ff8, 0x1f78), (0x1ff9, 0x1f79), (0x1ffa, 0x1f7c), (0x1ffb, 0x1f7d),
  (0x1ffc, 0x1ff3), (0x2126, 0x3c9), (0x212a, 0x6b), (0x212b, 0xe5), (0x2132, 0x214e), (0x2160, 0x2170),
  (0x2161, 0x2171), (0x2162, 0x2172), (0x2163, 0x2173), (0x2164, 0x2174), (0x2165, 0x2175), (0x2166, 0x2176),
  (0x2167, 0x2177), (0x2168, 0x2178), (0x2169, 0x2179), (0x216a, 0x217a), (0x216b, 0x217b), (0x216c, 0x217c),
  (0x216d, 0x217d), (0x216e, 0x217e), (0x216f, 0x217f), (0x2183, 0x2184), (0x24b6, 0x24d0), (0x24b7, 0x24d1),
  (0x24b8, 0x24d2), (0x24b9, 0x24d3), (0x24ba, 0x24d4), (0x24bb, 0x24d5), (0x24bc, 0x24d6), (0x24bd, 0x24d7),
  (0x24be, 0x24d8), (0x24bf, 0x24d9), (0x24c0, 0x24da), (0x24c1, 0x24db), (0x24c2, 0x24dc), (0x24c3, 0x24dd),
  (0x24c4, 0x24de), (0x24c5, 0x24df), (0x24c6, 0x24e0), (0x24c7, 0x24e1), (0x24c8, 0x24e2), (0x24c9, 0x24e3),
  (0x24ca, 0x24e4), (0x24cb, 0x24e5), (0x24cc, 0x24e6), (0x24cd, 0x24e7), (0x24ce, 0x24e8), (0x24cf, 0x24e9),
  (0x2c00, 0x2c30), (0x2c01, 0x2c31), (0x2c02, 0x2c32), (0x2c03, 0x2c33), (0x2c04, 0x2c34), (0x2c05, 0x2c35),
  (0x2c06, 0x2c36), (0x2c07, 0x2c37), (0x2c08, 0x2c38), (0x2c09, 0x2c39), (0x2c0a, 0x2c3a), (0x2c0b, 0x2c3b),
  (0x2c0c, 0x2c3c), (0x2c0d, 0x2c3d), (0x2c0e, 0x2c3e), (0x2c0f, 0x2c3f), (0x2c10, 0x2c40), (0x2c11, 0x2c41),
  (0x2c12, 0x2c42), (0x2c13, 0x2c43), (0x2c14, 0x2c44), (0x2c15, 0x2c45), (0x2c16, 0x2c46), (0x2c17, 0x2c47),
  (0x2c18, 0x2c48), (0x2c19, 0x2c49), (0x2c1a, 0x2c4a), (0x2c1b, 0x2c4b), (0x2c1c, 0x2c4c), (0x2c1d, 0x2c4d),
  (0x2c1e, 0x2c4e), (0x2c1f, 0x2c4f), (0x2c20, 0x2c50), (0x2c21, 0x2c51), (0x2c22, 0x2c52), (0x2c23, 0x2c53),
  (0x2c24, 0x2c54), (0x2c25, 0x2c55), (0x2c26, 0x2c56), (0x2c27, 0x2c57), (0x2c28, 0x2c58), (0x2c29, 0x2c59),
  (0x2c2a, 0x2c5a), (0x2c2b, 0x2c5b), (0x2c2c, 0x2c5c), (0x2c2d, 0x2c5d), (0x2c2e, 0x2c5e), (0x2c2f, 0x2c5f),
  (0x2c60, 0x2c61), (0x2c62, 0x26b), (0x2c63, 0x1d7d), (0x2c64, 0x27d), (0x2c67, 0x2c68), (0x2c69, 0x2c6a),
  (0x2c6b, 0x2c6c), (0x2c6d, 0x251), (0x2c6e, 0x271), (0x2c6f, 0x250), (0x2c70, 0x252), (0x2c72, 0x2c73),
  (0x2c75, 0x2c76), (0x2c7e, 0x23f), (0x2c7f, 0x240), (0x2c80, 0x2c81), (0x2c82, 0x2c83), (0x2c84, 0x2c85),
  (0x2c86, 0x2c87), (0x2c88, 0x2c89), (0x2c8a, 0x2c8b), (0x2c8c, 0x2c8d), (0x2c8e, 0x2c8f), (0x2c90, 0x2c91),
  (0x2c92, 0x2c93), (0x2c94, 0x2c95), (0x2c96, 0x2c97), (0x2c98, 0x2c99), (0x2c9a, 0x2c9b), (0x2c9c, 0x2c9d),
  (0x2c9e, 0x2c9f), (0x2ca0, 0x2ca1), (0x2ca2, 0x2ca3), (0x2ca4, 0x2ca5), (0x2ca6, 0x2ca7), (0x2ca8, 0x2ca9),
  (0x2caa, 0x2cab), (0x2cac, 0x2cad), (0x2cae, 0x2caf), (0x2cb0, 0x2cb1), (0x2cb2, 0x2cb3), (0x2cb4, 0x2cb5),
  (0x2cb6, 0x2cb7), (0x2cb8, 0x2cb9), (0x2cba, 0x2cbb), (0x2cbc, 0x2cbd), (0x2cbe, 0x2cbf), (0x2cc0, 0x2cc1),
  (0x2cc2, 0x2cc3), (0x2cc4, 0x2cc5), (0x2cc6, 0x2cc7), (0x2cc8, 0x2cc9), (0x2cca, 0x2ccb), (0x2ccc, 0x2ccd),
  (0x2cce, 0x2ccf), (0x2cd0, 0x2cd1), (0x2cd2, 0x2cd3), (0x2cd4, 0x2cd5), (0x2cd6, 0x2cd7), (0x2cd8, 0x2cd9),
  (0x2cda, 0x2cdb), (0x2cdc, 0x2cdd), (0x2cde, 0x2cdf), (0x2ce0, 0x2ce1), (0x2ce2, 0x2ce3), (0x2ceb, 0x2cec),
  (0x2ced, 0x2cee), (0x2cf2, 0x2cf3), (0xa640, 0xa641), (0xa642, 0xa643), (0xa644, 0xa645), (0xa646, 0xa647),
  (0xa648, 0xa649), (0xa64a, 0xa64b), (0xa64c, 0xa64d), (0xa64e, 0xa64f), (0xa650, 0xa651), (0xa652, 0xa653),
  (0xa654, 0xa655), (0xa656, 0xa657), (0xa658, 0xa659), (0xa65a, 0xa65b), (0xa65c, 0xa65d), (0xa65e, 0xa65f),
  (0xa660, 0xa661), (0xa662, 0xa663), (0xa664, 0xa665), (0xa666, 0xa667), (0xa668, 0xa669), (0xa66a, 0xa66b),
  (0xa66c, 0xa66d), (0xa680, 0xa681), (0xa682, 0xa683), (0xa684, 0xa685), (0xa686, 0xa687), (0xa688, 0xa689),
  (0xa68a, 0xa68b), (0xa68c, 0xa68d), (0xa68e, 0xa68f), (0xa690, 0xa691), (0xa692, 0xa693), (0xa694, 0xa695),
  (0xa696, 0xa697), (0xa698, 0xa699), (0xa69a, 0xa69b), (0xa722, 0xa723), (0xa724, 0xa725), (0xa726, 0xa727),
  (0xa728, 0xa729), (0xa72a, 0xa72b), (0xa72c, 0xa72d), (0xa72e, 0xa72f), (0xa732, 0xa733), (0xa734, 0xa735),
  (0xa736, 0xa737), (0xa738, 0xa739), (0xa73a, 0xa73b), (0xa73c, 0xa73d), (0xa73e, 0xa73f), (0xa740, 0xa741),
  (0xa742, 0xa743), (0xa744, 0xa745), (0xa746, 0xa747), (0xa748, 0xa749), (0xa74a, 0xa74b), (0xa74c, 0xa74d),
  (0xa74e, 0xa74f), (0xa750, 0xa751), (0xa752, 0xa753), (0xa754, 0xa755), (0xa756, 0xa757), (0xa758, 0xa759),
  (0xa75a, 0xa75b), (0xa75c, 0xa75d), (0xa75e, 0xa75f), (0xa760, 0xa761), (0xa762, 0xa763), (0xa764, 0xa765),
  (0xa766, 0xa767), (0xa768, 0xa769), (0xa76a, 0xa76b), (0xa76c, 0xa76d), (0xa76e, 0xa76f), (0xa779, 0xa77a),
  (0xa77b, 0xa77c), (0xa77d, 0x1d79), (0xa77e, 0xa77f), (0xa780, 0xa781), (0xa782, 0xa783), (0xa784, 0xa785),
  (0xa786, 0xa787), (0xa78b, 0xa78c), (0xa78d, 0x265), (0xa790, 0xa791), (0xa792, 0xa793), (0xa796, 0xa797),
  (0xa798, 0xa799), (0xa79a, 0xa79b), (0xa79c, 0xa79d), (0xa79e, 0xa79f), (0xa7a0, 0xa7a1), (0xa7a2, 0xa7a3),
  (0xa7a4, 0xa7a5), (0xa7a6, 0xa7a7), (0xa7a8, 0xa7a9), (0xa7aa, 0x266), (0xa7ab, 0x25c), (0xa7ac, 0x261),
  (0xa7ad, 0x26c), (0xa7ae, 0x26a), (0xa7b0, 0x29e), (0xa7b1, 0x287), (0xa7b2, 0x29d), (0xa7b3, 0xab53),
  (0xa7b4, 0xa7b5), (0xa7b6, 0xa7b7), (0xa7b8, 0xa7b9), (0xa7ba, 0xa7bb), (0xa7bc, 0xa7bd), (0xa7be, 0xa7bf),
  (0xa7c0, 0xa7c1), (0xa7c2, 0xa7c3), (0xa7c4, 0xa794), (0xa7c5, 0x282), (0xa7c6, 0x1d8e), (0xa7c7, 0xa7c8),
  (0xa7c9, 0xa7ca), (0xa7d0, 0xa7d1), (0xa7d6, 0xa7d7), (0xa7d8, 0xa7d9), (0xa7f5, 0xa7f6), (0xff21, 0xff41),
  (0xff22, 0xff42), (0xff23, 0xff43), (0xff24, 0xff44), (0xff25, 0xff45), (0xff26, 0xff46), (0xff27, 0xff47),
  (0xff28, 0xff48), (0xff29, 0xff49), (0xff2a, 0xff4a), (0xff2b, 0xff4b), (0xff2c, 0xff4c), (0xff2d, 0xff4d),
  (0xff2e, 0xff4e), (0xff2f, 0xff4f), (0xff30, 0xff50), (0xff31, 0xff51), (0xff32, 0xff52), (0xff33, 0xff53),
  (0xff34, 0xff54), (0xff35, 0xff55), (0xff36, 0xff56), (0xff37, 0xff57), (0xff38, 0xff58), (0xff39, 0xff59),
  (0xff3a, 0xff5a), (0x10400, 0x10428), (0x10401, 0x10429), (0x10402, 0x1042a), (0x10403, 0x1042b), (0x10404, 0x1042c),
  (0x10405, 0x1042d), (0x10406, 0x1042e), (0x10407, 0x1042f), (0x10408, 0x10430), (0x10409, 0x10431), (0x1040a, 0x10432),
  (0x1040b, 0x10433), (0x1040c, 0x10434), (0x1040d, 0x10435), (0x1040e, 0x10436), (0x1040f, 0x10437), (0x10410, 0x10438),
  (0x10411, 0x10439), (0x10412, 0x1043a), (0x10413, 0x1043b), (0x10414, 0x1043c), (0x10415, 0x1043d), (0x10416, 0x1043e),
  (0x10417, 0x1043f), (0x10418, 0x10440), (0x10419, 0x10441), (0x1041a, 0x10442), (0x1041b, 0x10443), (0x1041c, 0x10444),
  (0x1041d, 0x10445), (0x1041e, 0x10446), (0x1041f, 0x10447), (0x10420, 0x10448), (0x10421, 0x10449), (0x10422, 0x1044a),
  (0x10423, 0x1044b), (0x10424, 0x1044c), (0x10425, 0x1044d), (0x10426, 0x1044e), (0x10427, 0x1044f), (0x104b0, 0x104d8),
  (0x104b1, 0x104d9), (0x104b2, 0x104da), (0x104b3, 0x104db), (0x104b4, 0x104dc), (0x104b5, 0x104dd), (0x104b6, 0x104de),
  (0x104b7, 0x104df), (0x104b8, 0x104e0), (0x104b9, 0x104e1), (0x104ba, 0x104e2), (0x104bb, 0x104e3), (0x104bc, 0x104e4),
  (0x104bd, 0x104e5), (0x104be, 0x104e6), (0x104bf, 0x104e7), (0x104c0, 0x104e8), (0x104c1, 0x104e9), (0x104c2, 0x104ea),
  (0x104c3, 0x104eb), (0x104c4, 0x104ec), (0x104c5, 0x104ed), (0x104c6, 0x104ee), (0x104c7, 0x104ef), (0x104c8, 0x104f0),
  (0x104c9, 0x104f1), (0x104ca, 0x104f2), (0x104cb, 0x104f3), (0x104cc, 0x104f4), (0x104cd, 0x104f5), (0x104ce, 0x104f6),
  (0x104cf, 0x104f7), (0x104d0, 0x104f8), (0x104d1, 0x104f9), (0x104d2, 0x104fa), (0x104d3, 0x104fb), (0x10570, 0x10597),
  (0x10571, 0x10598), (0x10572, 0x10599), (0x10573, 0x1059a), (0x10574, 0x1059b), (0x10575, 0x1059c), (0x10576, 0x1059d),
  (0x10577, 0x1059e), (0x10578, 0x1059f), (0x10579, 0x105a0), (0x1057a, 0x105a1), (0x1057c, 0x105a3), (0x1057d, 0x105a4),
  (0x1057e, 0x105a5), (0x1057f, 0x105a6), (0x10580, 0x105a7), (0x10581, 0x105a8), (0x10582, 0x105a9), (0x10583, 0x105aa),
  (0x10584, 0x105ab), (0x10585, 0x105ac), (0x10586, 0x105ad), (0x10587, 0x105ae), (0x10588, 0x105af), (0x10589, 0x105b0),
  (0x1058a, 0x105b1), (0x1058c, 0x105b3), (0x1058d, 0x105b4), (0x1058e, 0x105b5), (0x1058f, 0x105b6), (0x10590, 0x105b7),
  (0x10591, 0x105b8), (0x10592, 0x105b9), (0x10594, 0x105bb), (0x10595, 0x105bc), (0x10c80, 0x10cc0), (0x10c81, 0x10cc1),
  (0x10c82, 0x10cc2), (0x10c83, 0x10cc3), (0x10c84, 0x10cc4), (0x10c85, 0x10cc5), (0x10c86, 0x10cc6), (0x10c87, 0x10cc7),
  (0x10c88, 0x10cc8), (0x10c89, 0x10cc9), (0x10c8a, 0x10cca), (0x10c8b, 0x10ccb), (0x10c8c, 0x10ccc), (0x10c8d, 0x10ccd),
  (0x10c8e, 0x10cce), (0x10c8f, 0x10ccf), (0x10c90, 0x10cd0), (0x10c91, 0x10cd1), (0x10c92, 0x10cd2), (0x10c93, 0x10cd3),
  (0x10c94, 0x10cd4), (0x10c95, 0x10cd5), (0x10c96, 0x10cd6), (0x10c97, 0x10cd7), (0x10c98, 0x10cd8), (0x10c99, 0x10cd9),
  (0x10c9a, 0x10cda), (0x10c9b, 0x10cdb), (0x10c9c, 0x10cdc), (0x10c9d, 0x10cdd), (0x10c9e, 0x10cde), (0x10c9f, 0x10cdf),
  (0x10ca0, 0x10ce0), (0x10ca1, 0x10ce1), (0x10ca2, 0x10ce2), (0x10ca3, 0x10ce3), (0x10ca4, 0x10ce4), (0x10ca5, 0x10ce5),
  (0x10ca6, 0x10ce6), (0x10ca7, 0x10ce7), (0x10ca8, 0x10ce8), (0x10ca9, 0x10ce9), (0x10caa, 0x10cea), (0x10cab, 0x10ceb),
  (0x10cac, 0x10cec), (0x10cad, 0x10ced), (0x10cae, 0x10cee), (0x10caf, 0x10cef), (0x10cb0, 0x10cf0), (0x10cb1, 0x10cf1),
  (0x10cb2, 0x10cf2), (0x118a0, 0x118c0), (0x118a1, 0x118c1), (0x118a2, 0x118c2), (0x118a3, 0x118c3), (0x118a4, 0x118c4),
  (0x118a5, 0x118c5), (0x118a6, 0x118c6), (0x118a7, 0x118c7), (0x118a8, 0x118c8), (0x118a9, 0x118c9), (0x118aa, 0x118ca),
  (0x118ab, 0x118cb), (0x118ac, 0x118cc), (0x118ad, 0x118cd), (0x118ae, 0x118ce), (0x118af, 0x118cf), (0x118b0, 0x118d0),
  (0x118b1, 0x118d1), (0x118b2, 0x118d2), (0x118b3, 0x118d3), (0x118b4, 0x118d4), (0x118b5, 0x118d5), (0x118b6, 0x118d6),
  (0x118b7, 0x118d7), (0x118b8, 0x118d8), (0x118b9, 0x118d9), (0x118ba, 0x118da), (0x118bb, 0x118db), (0x118bc, 0x118dc),
  (0x118bd, 0x118dd), (0x118be, 0x118de), (0x118bf, 0x118df), (0x16e40, 0x16e60), (0x16e41, 0x16e61), (0x16e42, 0x16e62),
  (0x16e43, 0x16e63), (0x16e44, 0x16e64), (0x16e45, 0x16e65), (0x16e46, 0x16e66), (0x16e47, 0x16e67), (0x16e48, 0x16e68),
  (0x16e49, 0x16e69), (0x16e4a, 0x16e6a), (0x16e4b, 0x16e6b), (0x16e4c, 0x16e6c), (0x16e4d, 0x16e6d), (0x16e4e, 0x16e6e),
  (0x16e4f, 0x16e6f), (0x16e50, 0x16e70), (0x16e51, 0x16e71), (0x16e52, 0x16e72), (0x16e53, 0x16e73), (0x16e54, 0x16e74),
  (0x16e55, 0x16e75), (0x16e56, 0x16e76), (0x16e57, 0x16e77), (0x16e58, 0x16e78), (0x16e59, 0x16e79), (0x16e5a, 0x16e7a),
  (0x16e5b, 0x16e7b), (0x16e5c, 0x16e7c), (0x16e5d, 0x16e7d), (0x16e5e, 0x16e7e), (0x16e5f, 0x16e7f), (0x1e900, 0x1e922),
  (0x1e901, 0x1e923), (0x1e902, 0x1e924), (0x1e903, 0x1e925), (0x1e904, 0x1e926), (0x1e905, 0x1e927), (0x1e906, 0x1e928),
  (0x1e907, 0x1e929), (0x1e908, 0x1e92a), (0x1e909, 0x1e92b), (0x1e90a, 0x1e92c), (0x1e90b, 0x1e92d), (0x1e90c, 0x1e92e),
  (0x1e90d, 0x1e92f), (0x1e90e, 0x1e930), (0x1e90f, 0x1e931), (0x1e910, 0x1e932), (0x1e911, 0x1e933), (0x1e912, 0x1e934),
  (0x1e913, 0x1e935), (0x1e914, 0x1e936), (0x1e915, 0x1e937), (0x1e916, 0x1e938), (0x1e917, 0x1e939), (0x1e918, 0x1e93a),
  (0x1e919, 0x1e93b), (0x1e91a, 0x1e93c), (0x1e91b, 0x1e93d), (0x1e91c, 0x1e93e), (0x1e91d, 0x1e93f), (0x1e91e, 0x1e940),
  (0x1e91f, 0x1e941), (0x1e920, 0x1e942), (0x1e921, 0x1e943)]


/-- Modelled from CPython: `re._casefix._EXTRA_CASES`, the extra
cross-equivalence sets the regex compiler adds for characters whose case
folding is not transitive through `unicode_tolower` alone (e.g. `s` and
the long s, `i` and the dotless i); a pattern literal whose lowered form
appears here is compiled to a small set containing the lowered form and
these alternatives. -/
def extraCasesTable : List (Nat × List Nat) := [
  (0x69, [0x131]),
  (0x73, [0x17f]),
  (0xb5, [0x3bc]),
  (0x131, [0x69]),
  (0x17f, [0x73]),
  (0x345, [0x3b9, 0x1fbe]),
  (0x390, [0x1fd3]),
  (0x3b0, [0x1fe3]),
  (0x3b2, [0x3d0]),
  (0x3b5, [0x3f5]),
  (0x3b8, [0x3d1]),
  (0x3b9, [0x345, 0x1fbe]),
  (0x3ba, [0x3f0]),
  (0x3bc, [0xb5]),
  (0x3c0, [0x3d6]),
  (0x3c1, [0x3f1]),
  (0x3c2, [0x3c3]),
  (0x3c3, [0x3c2]),
  (0x3c6, [0x3d5]),
  (0x3d0, [0x3b2]),
  (0x3d1, [0x3b8]),
  (0x3d5, [0x3c6]),
  (0x3d6, [0x3c0]),
  (0x3f0, [0x3ba]),
  (0x3f1, [0x3c1]),
  (0x3f5, [0x3b5]),
  (0x432, [0x1c80]),
  (0x434, [0x1c81]),
  (0x43e, [0x1c82]),
  (0x441, [0x1c83]),
  (0x442, [0x1c84, 0x1c85]),
  (0x44a, [0x1c86]),
  (0x463, [0x1c87]),
  (0x1c80, [0x432]),
  (0x1c81, [0x434]),
  (0x1c82, [0x43e]),
  (0x1c83, [0x441]),
  (0x1c84, [0x442, 0x1c85]),
  (0x1c85, [0x442, 0x1c84]),
  (0x1c86, [0x44a]),
  (0x1c87, [0x463]),
  (0x1c88, [0xa64b]),
  (0x1e61, [0x1e9b]),
  (0x1e9b, [0x1e61]),
  (0x1fbe, [0x345, 0x3b9]),
  (0x1fd3, [0x390]),
  (0x1fe3, [0x3b0]),
  (0xa64b, [0x1c88]),
  (0xfb05, [0xfb06]),
  (0xfb06, [0xfb05])]

/-- `_sre.unicode_tolower` on a code point: ASCII letters fold
arithmetically, other ASCII is fixed, and everything else goes through the
table (identity when absent). -/
def uniLowerNat (n : Nat) : Nat :=
  if 65 ≤ n ∧ n ≤ 90 then n + 32
  else if n < 128 then n
  else ((uniLowerTable.find? (fun p => p.1 = n)).map Prod.snd).getD n

/-- The extra-equivalence set of a (lowered) code point. -/
def extraCases (n : Nat) : List Nat :=
  ((extraCasesTable.find? (fun p => p.1 = n)).map Prod.snd).getD []

/-- One pattern character `p` of the escaped literal old-text matching one
input character `x` under `re.I | re.U`: the compiler lowers the pattern
character and emits either a lowered-comparison literal or, when the
lowered form has extra equivalences, a set of it plus those alternatives;
the matcher then compares the lowered input against that set.  (For an
uncased pattern character the compiler emits a plain literal compared
without lowering; that coincides with this folded comparison because no
character lowers onto a distinct uncased character and no uncased
character has extra equivalences — checked exhaustively against the
interpreter's tables.) -/
def chrMatch (p x : Char) : Bool :=
  uniLowerNat x.toNat = uniLowerNat p.toNat ||
    (extraCases (uniLowerNat p.toNat)).contains (uniLowerNat x.toNat)

/-- Decidable list-prefix test used by the substitution scanners. -/
def isPre : List Char → List Char → Bool
  | [], _ => true
  | _ :: _, [] => false
  | a :: as, b :: bs => a = b && isPre as bs

/-- `str.startswith` on the character level. -/
def strStarts (s p : String) : Bool := isPre p.data s.data

/-- `s[n:]` — drop the first `n` characters. -/
def strDrop (s : String) (n : Nat) : String := ⟨s.data.drop n⟩

/-- `s[:-1]` — drop the last character. -/
def strDropLast (s : String) : String := ⟨s.data.dropLast⟩

/-- `c in s` — membership of a character in a string, as used on the
flags group. -/
def strContains (s : String) (c : Char) : Bool := s.data.contains c

/-- `decode_escape` applied via `escape_sequence_pattern.sub` in
`findandreplace` (find.py lines 163–166 and 224–231): the compiled pattern
is `\\[\\<sep>]`, so scanning left to right, a backslash followed by a
backslash or by the selected separator is replaced by that second character;
any other character (including a backslash not starting a recognized pair)
is kept and the scan advances by one, exactly as `re.sub` does. -/
def decodeEsc (sep : Char) : List Char → List Char
  | [] => []
  | [c] => [c]
  | a :: b :: rest =>
    if a = '\\' ∧ (b = '\\' ∨ b = sep) then b :: decodeEsc sep rest
    else a :: decodeEsc sep (b :: rest)

/-- String wrapper for `decodeEsc`. -/
def decodeStr (sep : Char) (s : String) : String := ⟨decodeEsc sep s.data⟩

/-- Left-to-right non-overlapping substitution scanner shared by the two
matcher modes of find.py lines 181-190.  `pre` tests whether a match starts
at the current suffix, `olen` is the length every match consumes, `rep`
maps the matched segment to its replacement (a constant function for
`str.replace`, template expansion for `re.sub`), `count` is the remaining
number of replacements (negative counts never run out, i.e. replace all),
and `skip` counts characters still to consume from an already-replaced
match.  At a match the scanner emits the replacement of the matched
segment, consumes `olen` characters and decrements `count`; otherwise it
copies one character and moves on. -/
def subst (pre : List Char → Bool) (olen : Nat) (rep : List Char → List Char) :
    Int → Nat → List Char → List Char
  | _, _, [] => []
  | count, skip + 1, _ :: rest => subst pre olen rep count skip rest
  | count, 0, c :: rest =>
    if count ≠ 0 ∧ olen ≠ 0 ∧ pre (c :: rest) = true then
      rep ((c :: rest).take olen) ++ subst pre olen rep (count - 1) (olen - 1) rest
    else
      c :: subst pre olen rep count 0 rest

/-- `str.replace(old, new, count)` as used in find.py line 190: replace
literal occurrences of `old` left to right, at most `count` of them when
`count` is non-negative, all of them when `count` is negative (the plugin
passes `-1` for the `g` flag and `1` otherwise).  The directive grammar
guarantees a non-empty `old` fragment, which the guard re-checks. -/
def pyRep (old rep : List Char) (count : Int) (s : List Char) : List Char :=
  subst (fun l => isPre old l) old.length (fun _ => rep) count 0 s

/-- The escaped-literal pattern `re.compile(re.escape(old), re.U | re.I)`
of find.py line 184 matching at the head of `s`: character for character
per `chrMatch` (escaping makes metacharacters match themselves, and each
pattern character consumes exactly one input character). -/
def ciPre : List Char → List Char → Bool
  | [], _ => true
  | _ :: _, [] => false
  | p :: ps, x :: xs => chrMatch p x && ciPre ps xs

/-- A whole segment matching the whole pattern: same length, character for
character per `chrMatch`. -/
def charsMatch : List Char → List Char → Bool
  | [], [] => true
  | p :: ps, x :: xs => chrMatch p x && charsMatch ps xs
  | _, _ => false

/-- An item of a parsed `re.sub` replacement template: a literal character
or a group reference. -/
inductive TemplItem where
  | lit (c : Char)
  | group (n : Nat)
deriving DecidableEq, Repr

/-- Octal digit test of the template parser. -/
def isOctD (c : Char) : Bool := decide ('0' ≤ c ∧ c ≤ '7')

/-- Decimal digit test of the template parser. -/
def isDigD (c : Char) : Bool := decide ('0' ≤ c ∧ c ≤ '9')

/-- Numeric value of a decimal digit. -/
def digVal (c : Char) : Nat := c.toNat - 48

/-- The character escapes replacement templates accept
(`re._parser.ESCAPES`): the backslash itself and the seven control-code
escapes; any other escaped ASCII letter is an error and any other escaped
character stays as the two characters. -/
def templEscape (c : Char) : Option Char :=
  if c = 'a' then some '\x07'
  else if c = 'b' then some '\x08'
  else if c = 'f' then some '\x0c'
  else if c = 'n' then some '\n'
  else if c = 'r' then some '\x0d'
  else if c = 't' then some '\t'
  else if c = 'v' then some '\x0b'
  else if c = '\\' then some '\\'
  else none

/-- Resolve a `\g<name>` or `\digits` group reference of a template
against a pattern with `groups` capture groups and no named groups (the
escaped-literal pattern of find.py has none): a decimal name up to the
group count resolves, larger ones are invalid group references, an
identifier-shaped name is an unknown group name, anything else is a bad
character in the name.  (Error messages abbreviate CPython's, which also
carry positions; every error path makes `re.sub` raise.) -/
def groupRef (groups : Nat) (name : List Char) : Except String TemplItem :=
  if name = [] then .error "missing group name"
  else if name.all (fun c => isDigD c) then
    let v := name.foldl (fun a c => a * 10 + digVal c) 0
    if 1073741823 <= v then .error "invalid group reference"
    else if groups < v then .error "invalid group reference"
    else .ok (.group v)
  else if decide ('a' <= name.headD ' ' ∧ name.headD ' ' <= 'z') ||
      decide ('A' <= name.headD ' ' ∧ name.headD ' ' <= 'Z') ||
      name.headD ' ' = '_' then .error "unknown group name"
  else .error "bad character in group name"

/-- `re._parser.parse_template`, fuelled (the fuel strictly exceeds the
template length, so the exhaustion branch is unreachable): literals are
collected; a backslash introduces a group reference (`\g<...>`, `\1`,
`\12`), an octal escape (`\0` with up to two more octal digits, or three
octal digits capped at 0o377), a character escape, an error for an
unknown escaped ASCII letter or a trailing backslash, or the two literal
characters for any other escape. -/
def parseTemplateF (groups : Nat) : Nat → List Char → Except String (List TemplItem)
  | 0, _ => .error "template fuel exhausted"
  | _ + 1, [] => .ok []
  | fuel + 1, c :: rest =>
    if c ≠ '\\' then
      match parseTemplateF groups fuel rest with
      | .ok items => .ok (.lit c :: items)
      | .error e => .error e
    else
      match rest with
      | [] => .error "bad escape (end of pattern)"
      | e :: rest2 =>
        if e = 'g' then
          match rest2 with
          | '<' :: rest3 =>
            match rest3.dropWhile (fun ch => ch ≠ '>') with
            | [] => .error "missing >, unterminated name"
            | _ :: rest4 =>
              match groupRef groups (rest3.takeWhile (fun ch => ch ≠ '>')) with
              | .ok item =>
                match parseTemplateF groups fuel rest4 with
                | .ok items => .ok (item :: items)
                | .error e2 => .error e2
              | .error e2 => .error e2
          | _ => .error "missing <"
        else if e = '0' then
          let ds := (rest2.take 2).takeWhile (fun ch => isOctD ch)
          match parseTemplateF groups fuel (rest2.drop ds.length) with
          | .ok items =>
            .ok (.lit (Char.ofNat ((ds.foldl (fun a ch => a * 8 + digVal ch) 0) % 256))
              :: items)
          | .error e2 => .error e2
        else if isDigD e then
          match rest2 with
          | d2 :: rest3 =>
            if isDigD d2 then
              match rest3 with
              | d3 :: rest4 =>
                if isOctD e && isOctD d2 && isOctD d3 then
                  let v := digVal e * 64 + digVal d2 * 8 + digVal d3
                  if 255 < v then .error "octal escape value outside of range 0-0o377"
                  else
                    match parseTemplateF groups fuel rest4 with
                    | .ok items => .ok (.lit (Char.ofNat v) :: items)
                    | .error e2 => .error e2
                else
                  match groupRef groups [e, d2] with
                  | .ok item =>
                    match parseTemplateF groups fuel rest3 with
                    | .ok items => .ok (item :: items)
                    | .error e2 => .error e2
                  | .error e2 => .error e2
              | [] =>
                match groupRef groups [e, d2] with
                | .ok item => .ok [item]
                | .error e2 => .error e2
            else
              match groupRef groups [e] with
              | .ok item =>
                match parseTemplateF groups fuel rest2 with
                | .ok items => .ok (item :: items)
                | .error e2 => .error e2
              | .error e2 => .error e2
          | [] =>
            match groupRef groups [e] with
            | .ok item => .ok [item]
            | .error e2 => .error e2
        else
          match templEscape e with
          | some ch =>
            match parseTemplateF groups fuel rest2 with
            | .ok items => .ok (.lit ch :: items)
            | .error e2 => .error e2
          | none =>
            if decide ('a' <= e ∧ e <= 'z') || decide ('A' <= e ∧ e <= 'Z') then
              .error "bad escape"
            else
              match parseTemplateF groups fuel rest2 with
              | .ok items => .ok (.lit '\\' :: .lit e :: items)
              | .error e2 => .error e2

/-- Parse a replacement template against a pattern with `groups` capture
groups. -/
def parseTemplate (groups : Nat) (s : List Char) : Except String (List TemplItem) :=
  parseTemplateF groups (s.length + 1) s

/-- Expand a parsed template at one match site: literals are copied and a
group reference inserts that group's matched text in its original casing —
for the zero-group escaped-literal pattern only group 0, the whole match,
can have been validated, so other indices (unreachable here) expand
empty. -/
def expandTemplate (items : List TemplItem) (matched : List Char) : List Char :=
  items.foldr (fun it acc =>
    match it with
    | .lit c => c :: acc
    | .group n => if n = 0 then matched ++ acc else acc) []

/-- The substitution loop of `re.sub(regex, new, s, count)` for the
escaped-literal case-insensitive pattern (find.py lines 184-187), given the
already-parsed template: scan left to right, replacing each match by the
template expanded at it; `count = 1` replaces the first occurrence only and
any negative count replaces all (the code passes `count == 1` to `re.sub`,
i.e. `1` when the `g` flag is absent and `0` = replace-all when it is
present, which the `-1` encoding below reproduces). -/
def ciSub (old : List Char) (items : List TemplItem) (count : Int) (s : List Char) :
    List Char :=
  subst (fun l => ciPre old l) old.length (expandTemplate items) count 0 s

/-- String wrapper for `pyRep`. -/
def pyReplaceStr (old rep : String) (count : Int) (s : String) : String :=
  ⟨pyRep old.data rep.data count s.data⟩

/-- `re.sub(re.compile(re.escape(old), re.U | re.I), rep, s, ...)`: the
template is parsed once and each match replaced by its expansion.  When the
template does not parse, the Python call raises inside `findandreplace`
before any line comparison succeeds, any reply or any buffer push, so at
the modelled store/reply interface such a run is indistinguishable from a
substitution that changes nothing; the error case therefore returns the
input unchanged (the raised exception itself escapes to the hosting
framework, outside the modelled interface). -/
def ciReplaceStr (old rep : String) (count : Int) (s : String) : String :=
  match parseTemplate 0 rep.data with
  | .ok items => ⟨ciSub old.data items count s.data⟩
  | .error _ => s

/-- The two-level line-history store of find.py: channel → speaker →
most-recent-first list of lines, both levels identifier-keyed
(`bot.memory['find_lines']`, built with `bot.make_identifier_memory()`). -/
abbrev Store : Type := IdMemory (IdMemory (List String))

/-- The named capture groups and message attributes `findandreplace`
consumes from its trigger: the author nick, the originating channel, the
optional explicit target (`nick` group), the separator character, the
`old`, `new` and `flags` groups, and the private-message flag. -/
structure Trigger where
  nick : String
  sender : String
  nickGroup : Option String
  sep : Char
  old : String
  newText : String
  flags : String
  is_privmsg : Bool

/-- Look up the buffered history for a channel/speaker pair
(`bot.memory['find_lines'].get(trigger.sender, {}).get(rnick, None)`,
find.py line 159). -/
def historyOf (store : Store) (ch nick : String) : Option (List String) :=
  (memGet store ch).bind (fun chan => memGet chan nick)

/-- The history buffer with `[]` standing for an absent entry. -/
def histD (store : Store) (ch nick : String) : List String :=
  (historyOf store ch nick).getD []

/-- `collectlines` (find.py lines 40–60): directive-looking lines are
discarded; otherwise channel and speaker entries are lazily created and the
line is pushed to the front of the speaker's `deque(maxlen=10)` (an action
message loses its trailing `\x01` first), evicting the oldest on overflow. -/
def record (store : Store) (sender nick line : String) : Store :=
  if strStarts line "s/" ∨ strStarts line "s|" then store
  else
    let chan := (memGet store sender).getD []
    let buf := (memGet chan nick).getD []
    let stored := if strStarts line "\x01ACTION" then strDropLast line else line
    memSet store sender (memSet chan nick ((stored :: buf).take 10))

/-- Record a list of lines in the order they were said. -/
def recordAll (store : Store) (sender nick : String) (lines : List String) : Store :=
  lines.foldl (fun st l => record st sender nick l) store

/-- The per-line action handling of the scan loop (find.py lines 196–200):
report whether the line is an action message, and the line with the
`\x01ACTION ` sentinel stripped (`line[8:]`) when it is. -/
def stripAction (line : String) : Bool × String :=
  if strStarts line "\x01ACTION" then (true, strDrop line 8) else (false, line)

/-- The scan loop of `findandreplace` (find.py lines 194–204): walk the
most-recent-first history, apply the substitution to each (action-stripped)
line, and stop at the first line the substitution changes, returning the
action flag and the replaced text. -/
def scanHistory (repl : String → String) : List String → Option (Bool × String)
  | [] => none
  | line :: rest =>
    let me := (stripAction line).1
    let stripped := (stripAction line).2
    let replaced := repl stripped
    if replaced ≠ stripped then some (me, replaced) else scanHistory repl rest

/-- The cleaned replacement text (find.py lines 171–173): a non-empty `new`
group is escape-decoded and emphasized; an empty one stays empty. -/
def procNew (t : Trigger) : String :=
  if t.newText = "" then "" else bold (decodeStr t.sep t.newText)

/-- The substitution function `repl` built by `findandreplace` (find.py
lines 175–190): the `g` flag selects replace-all (`count = -1`) versus
replace-once, and the `i` flag selects the case-insensitive escaped-literal
pattern over the exact literal `str.replace`. -/
def buildRepl (t : Trigger) : String → String :=
  let old := decodeStr t.sep t.old
  let rep := procNew t
  let count : Int := if strContains t.flags 'g' then -1 else 1
  if strContains t.flags 'i' then fun s => ciReplaceStr old rep count s
  else fun s => pyReplaceStr old rep count s

/-- `findandreplace` (find.py lines 150–221): resolve the target speaker,
fetch their history, build the substitution, scan newest-first for the
first changed line, and on success push the corrected line (action sentinel
re-attached) to the front of the buffer and produce the reply phrase; the
returned pair is the updated store and the optional reply. -/
def findandreplace (store : Store) (t : Trigger) : Store × Option String :=
  if t.is_privmsg then (store, none)
  else
    let rnick := t.nickGroup.getD t.nick
    match historyOf store t.sender rnick with
    | none => (store, none)
    | some history =>
      if history.isEmpty then (store, none)
      else
        match scanHistory (buildRepl t) history with
        | none => (store, none)
        | some (me, newPhrase) =>
          if newPhrase = "" then (store, none)
          else
            let entry := (if me then "\x01ACTION " else "") ++ newPhrase
            let chan := (memGet store t.sender).getD []
            let store' := memSet store t.sender
              (memSet chan rnick ((entry :: history).take 10))
            let phrase1 :=
              if me then newPhrase else "meant to say: " ++ newPhrase
            let phrase :=
              if t.nickGroup.isSome then
                t.nick ++ " thinks " ++ rnick ++ " " ++ phrase1
              else
                t.nick ++ " " ++ phrase1
            (store', some phrase)

/-- Every buffer of the store respects the `deque(maxlen=10)` bound. -/
def boundedStore (store : Store) : Prop :=
  ∀ p ∈ (store : List (String × IdMemory (List String))),
    ∀ q ∈ (p.2 : List (String × List String)), q.2.length ≤ 10

instance : DecidablePred boundedStore := fun store =>
  inferInstanceAs (Decidable (∀ p ∈ (store : List (String × IdMemory (List String))),
    ∀ q ∈ (p.2 : List (String × List String)), q.2.length ≤ 10))

/-- A chat line that `collectlines` stores verbatim: not a directive and
not an action message. -/
def cleanLine (l : String) : Prop :=
  strStarts l "s/" = false ∧ strStarts l "s|" = false ∧
    strStarts l "\x01ACTION" = false

instance : DecidablePred cleanLine := fun l =>
  inferInstanceAs (Decidable (strStarts l "s/" = false ∧ strStarts l "s|" = false ∧
    strStarts l "\x01ACTION" = false))

/-! ### Helper lemmas about the prefix test, the mapping and the scanner -/

theorem isPre_iff (p : List Char) : ∀ l, isPre p l = true ↔ ∃ t, l = p ++ t := by
  induction p with
  | nil =>
    intro l
    simp [isPre]
  | cons a as ih =>
    intro l
    cases l with
    | nil => simp [isPre]
    | cons b bs =>
      simp only [isPre, Bool.and_eq_true, decide_eq_true_eq, ih bs]
      constructor
      · rintro ⟨rfl, t, rfl⟩
        exact ⟨t, rfl⟩
      · rintro ⟨t, h⟩
        injection h with h1 h2
        exact ⟨h1.symm, t, h2⟩

/-- The value-replacing rewrite of `memSet` keeps first components, so a
folded-key probe sees the same keys before and after. -/
theorem memSet_pred_comp {V : Type} (k k' : String) (v : V)
    (h : fold1459 k' = fold1459 k) :
    ((fun p : String × V => decide (fold1459 p.1 = fold1459 k')) ∘
      (fun p : String × V => if fold1459 p.1 = fold1459 k then (p.1, v) else p)) =
    (fun p : String × V => decide (fold1459 p.1 = fold1459 k')) := by
  funext p
  by_cases hp : fold1459 p.1 = fold1459 k
  · simp [hp, h]
  · simp [hp]

theorem memGet_set {V : Type} (m : IdMemory V) (k k' : String) (v : V)
    (h : fold1459 k' = fold1459 k) :
    memGet (memSet m k v) k' = some v := by
  unfold memGet memSet
  by_cases hm : m.any (fun p => fold1459 p.1 = fold1459 k) = true
  · rw [if_pos hm, List.find?_map, memSet_pred_comp k k' v h]
    obtain ⟨a, ha, hpa⟩ := List.any_eq_true.mp hm
    have hsome : (m.find? (fun p => decide (fold1459 p.1 = fold1459 k'))).isSome := by
      refine List.find?_isSome.mpr ⟨a, ha, ?_⟩
      simp only [decide_eq_true_eq] at hpa ⊢
      exact hpa.trans h.symm
    obtain ⟨b, hb⟩ := Option.isSome_iff_exists.mp hsome
    have hpb := List.find?_some hb
    simp only [decide_eq_true_eq] at hpb
    rw [hb]
    simp [hpb.trans h]
  · rw [if_neg hm, List.find?_append]
    have hnone : m.find? (fun p => decide (fold1459 p.1 = fold1459 k')) = none := by
      rw [List.find?_eq_none]
      intro x hx
      simp only [decide_eq_true_eq]
      intro hc
      exact hm (List.any_eq_true.mpr ⟨x, hx, by simp [hc.trans h]⟩)
    rw [hnone]
    simp [List.find?_cons, h]

theorem memContains_set {V : Type} (m : IdMemory V) (k k' : String) (v : V)
    (h : fold1459 k' = fold1459 k) :
    memContains (memSet m k v) (some k') = true := by
  have hdef : memContains (memSet m k v) (some k') =
      (memSet m k v).any (fun p => decide (fold1459 p.1 = fold1459 k')) := rfl
  rw [hdef]
  unfold memSet
  by_cases hm : m.any (fun p => fold1459 p.1 = fold1459 k) = true
  · rw [if_pos hm, List.any_map, memSet_pred_comp k k' v h]
    obtain ⟨a, ha, hpa⟩ := List.any_eq_true.mp hm
    refine List.any_eq_true.mpr ⟨a, ha, ?_⟩
    simp only [decide_eq_true_eq] at hpa ⊢
    exact hpa.trans h.symm
  · rw [if_neg hm, List.any_append]
    simp [h]

theorem memContains_none {V : Type} (m : IdMemory V) : memContains m none = false := rfl

theorem memContains_false {V : Type} (m : IdMemory V) (k : String)
    (h : ∀ q ∈ m, fold1459 q.1 ≠ fold1459 k) :
    memContains m (some k) = false := by
  have hdef : memContains m (some k) =
      m.any (fun p => decide (fold1459 p.1 = fold1459 k)) := rfl
  rw [hdef, Bool.eq_false_iff]
  intro hc
  obtain ⟨x, hx, hpx⟩ := List.any_eq_true.mp hc
  simp only [decide_eq_true_eq] at hpx
  exact h x hx hpx

/-- Members of the store after a `memSet` are old members or carry the new
value. -/
theorem mem_memSet {V : Type} {m : IdMemory V} {k : String} {v : V} {q : String × V}
    (hq : q ∈ memSet m k v) : q ∈ m ∨ q.2 = v := by
  unfold memSet at hq
  by_cases hm : m.any (fun p => fold1459 p.1 = fold1459 k) = true
  · rw [if_pos hm] at hq
    obtain ⟨p, hp, hfp⟩ := List.mem_map.mp hq
    by_cases hpk : fold1459 p.1 = fold1459 k
    · right
      rw [← hfp]
      simp [hpk]
    · left
      rw [← hfp]
      simpa [hpk] using hp
  · rw [if_neg hm] at hq
    rcases List.mem_append.mp hq with hmem | hmem
    · exact Or.inl hmem
    · right
      simp only [List.mem_singleton] at hmem
      rw [hmem]

/-- A `skip` of `n` silently consumes `n` characters. -/
theorem subst_skip (pre : List Char → Bool) (olen : Nat) (rep : List Char → List Char) :
    ∀ (skip : Nat) (count : Int) (s : List Char),
      subst pre olen rep count skip s = subst pre olen rep count 0 (s.drop skip) := by
  intro skip
  induction skip with
  | zero =>
    intro count s
    simp
  | succ n ih =>
    intro count s
    cases s with
    | nil => simp [subst]
    | cons c rest => simp [subst, ih]

/-- With no replacements left the scanner copies its input. -/
theorem subst_count_zero (pre : List Char → Bool) (olen : Nat) (rep : List Char → List Char) :
    ∀ s : List Char, subst pre olen rep 0 0 s = s := by
  intro s
  induction s with
  | nil => rfl
  | cons c rest ih =>
    show (if ((0:Int) ≠ 0 ∧ olen ≠ 0 ∧ pre (c :: rest) = true) then
        rep ((c :: rest).take olen) ++ subst pre olen rep (0 - 1) (olen - 1) rest
      else c :: subst pre olen rep 0 0 rest) = c :: rest
    rw [if_neg (fun hg => hg.1 rfl), ih]

/-- With one replacement allowed, whenever the scanner changes its input it
has split it around the leftmost match: the part before the match is
copied, the match (characterized by `M`, each match being `olen` long) is
replaced by `rep`, the rest is copied, and no decomposition places a match
strictly earlier. -/
theorem subst_one_first (pre : List Char → Bool) (olen : Nat) (rep : List Char → List Char)
    (M : List Char → Prop)
    (holen : 0 < olen)
    (hpre : ∀ l, pre l = true ↔ ∃ m t, l = m ++ t ∧ M m)
    (hlen : ∀ m, M m → m.length = olen) :
    ∀ s : List Char, subst pre olen rep 1 0 s ≠ s →
      ∃ a b c, s = a ++ b ++ c ∧ M b ∧
        subst pre olen rep 1 0 s = a ++ rep b ++ c ∧
        ∀ a' b' c', s = a' ++ b' ++ c' → M b' → a.length ≤ a'.length := by
  intro s
  induction s with
  | nil =>
    intro h
    exact absurd rfl h
  | cons ch rest ih =>
    intro hchange
    have hstep : subst pre olen rep 1 0 (ch :: rest) =
        if ((1:Int) ≠ 0 ∧ olen ≠ 0 ∧ pre (ch :: rest) = true) then
          rep ((ch :: rest).take olen) ++ subst pre olen rep (1 - 1) (olen - 1) rest
        else ch :: subst pre olen rep 1 0 rest := rfl
    by_cases hg : ((1:Int) ≠ 0 ∧ olen ≠ 0 ∧ pre (ch :: rest) = true)
    · obtain ⟨mm, tt, heq, hM⟩ := (hpre _).mp hg.2.2
      have hmlen : mm.length = olen := hlen mm hM
      have hdrop : rest.drop (olen - 1) = tt := by
        have h1 : (ch :: rest).drop olen = tt := by
          rw [heq, ← hmlen, List.drop_left]
        rw [← h1]
        cases olen with
        | zero => exact absurd rfl (Nat.pos_iff_ne_zero.mp holen)
        | succ n => simp
      have htake : (ch :: rest).take olen = mm := by
        rw [heq, ← hmlen, List.take_left]
      refine ⟨[], mm, tt, by simpa using heq, hM, ?_, ?_⟩
      · rw [hstep, if_pos hg]
        show rep ((ch :: rest).take olen) ++ subst pre olen rep 0 (olen - 1) rest =
          [] ++ rep mm ++ tt
        rw [subst_skip, subst_count_zero, hdrop, htake]
        simp
      · intro a' b' c' _ _
        simp
    · rw [hstep, if_neg hg] at hchange ⊢
      have hrest : subst pre olen rep 1 0 rest ≠ rest := by
        intro h
        exact hchange (by rw [h])
      obtain ⟨a, b, c, hs, hM, hout, hmin⟩ := ih hrest
      refine ⟨ch :: a, b, c, by simp only [List.cons_append]; rw [hs], hM, ?_, ?_⟩
      · rw [hout]
        simp
      · intro a' b' c' heq hMb
        cases a' with
        | nil =>
          exfalso
          apply hg
          refine ⟨by norm_num, Nat.pos_iff_ne_zero.mp holen, ?_⟩
          exact (hpre _).mpr ⟨b', c', by simpa using heq, hMb⟩
        | cons d a'' =>
          simp only [List.cons_append, List.cons.injEq] at heq
          have := hmin a'' b' c' heq.2 hMb
          simpa [Nat.succ_le_succ_iff] using this

/-- A pattern match at the head of `l` is exactly a decomposition whose
head segment matches the whole pattern character for character. -/
theorem ciPre_iff (old : List Char) : ∀ l, ciPre old l = true ↔
    ∃ m t, l = m ++ t ∧ charsMatch old m = true := by
  induction old with
  | nil =>
    intro l
    constructor
    · intro _
      exact ⟨[], l, rfl, rfl⟩
    · intro _
      rfl
  | cons p ps ih =>
    intro l
    cases l with
    | nil =>
      constructor
      · intro h
        exact absurd h (by simp [ciPre])
      · rintro ⟨m, t, hmt, hcm⟩
        have hm : m = [] := by
          cases m with
          | nil => rfl
          | cons a as => simp at hmt
        rw [hm] at hcm
        exact absurd hcm (by simp [charsMatch])
    | cons x xs =>
      constructor
      · intro h
        simp only [ciPre, Bool.and_eq_true] at h
        obtain ⟨m, t, hmt, hcm⟩ := (ih xs).mp h.2
        refine ⟨x :: m, t, by simp only [List.cons_append]; rw [hmt], ?_⟩
        simp only [charsMatch, Bool.and_eq_true]
        exact ⟨h.1, hcm⟩
      · rintro ⟨m, t, hmt, hcm⟩
        cases m with
        | nil => simp [charsMatch] at hcm
        | cons y ms =>
          simp only [List.cons_append, List.cons.injEq] at hmt
          obtain ⟨rfl, hxs⟩ := hmt
          simp only [charsMatch, Bool.and_eq_true] at hcm
          simp only [ciPre, Bool.and_eq_true]
          exact ⟨hcm.1, (ih xs).mpr ⟨ms, t, hxs, hcm.2⟩⟩

/-- A matching segment has the pattern's length. -/
theorem charsMatch_length : ∀ {old m : List Char}, charsMatch old m = true →
    m.length = old.length := by
  intro old
  induction old with
  | nil =>
    intro m h
    cases m with
    | nil => rfl
    | cons a as => simp [charsMatch] at h
  | cons p ps ih =>
    intro m h
    cases m with
    | nil => simp [charsMatch] at h
    | cons x xs =>
      simp only [charsMatch, Bool.and_eq_true] at h
      simp [ih h.2]

/-- A literal prefix match is a decomposition whose head is `old` itself. -/
theorem litPre_iff (old : List Char) : ∀ l, isPre old l = true ↔
    ∃ m t, l = m ++ t ∧ m = old := by
  intro l
  rw [isPre_iff]
  constructor
  · rintro ⟨t, rfl⟩
    exact ⟨old, t, rfl, rfl⟩
  · rintro ⟨m, t, rfl, rfl⟩
    exact ⟨t, rfl⟩

/-- The scan loop stops at the first (newest) line the substitution
changes: a successful scan yields an index whose line changes, every more
recent line being left unchanged by the substitution, and the reported
values are that line's action flag and substituted text. -/
theorem scanHistory_some {repl : String → String} :
    ∀ {hist : List String} {me : Bool} {p : String},
      scanHistory repl hist = some (me, p) →
      ∃ i : Nat, ∃ hi : i < hist.length,
        me = (stripAction (hist.get ⟨i, hi⟩)).1 ∧
        p = repl (stripAction (hist.get ⟨i, hi⟩)).2 ∧
        p ≠ (stripAction (hist.get ⟨i, hi⟩)).2 ∧
        ∀ j, ∀ hj : j < hist.length, j < i →
          repl (stripAction (hist.get ⟨j, hj⟩)).2 = (stripAction (hist.get ⟨j, hj⟩)).2 := by
  intro hist
  induction hist with
  | nil =>
    intro me p h
    exact absurd h (by simp [scanHistory])
  | cons line rest ih =>
    intro me p h
    have hstep : scanHistory repl (line :: rest) =
        if repl (stripAction line).2 ≠ (stripAction line).2 then
          some ((stripAction line).1, repl (stripAction line).2)
        else scanHistory repl rest := rfl
    by_cases hch : repl (stripAction line).2 ≠ (stripAction line).2
    · rw [hstep, if_pos hch] at h
      injection h with h'
      injection h' with h1 h2
      refine ⟨0, Nat.succ_pos _, ?_, ?_, ?_, ?_⟩
      · exact h1.symm
      · exact h2.symm
      · show p ≠ (stripAction line).2
        rw [← h2]
        exact hch
      · intro j hj hj0
        exact absurd hj0 (Nat.not_lt_zero j)
    · rw [hstep, if_neg hch] at h
      obtain ⟨i, hi, hme, hp, hne, hbefore⟩ := ih h
      refine ⟨i + 1, Nat.succ_lt_succ hi, hme, hp, hne, ?_⟩
      intro j hj hji
      cases j with
      | zero =>
        simpa using not_ne_iff.mp hch
      | succ j' =>
        exact hbefore j' (Nat.lt_of_succ_lt_succ hj) (Nat.lt_of_succ_lt_succ hji)

/-- Master equation for `findandreplace` once the target history is known:
the result is determined by the scan of that history — a silent no-op when
no line changes or the replaced text is empty, and otherwise the push-back
of the corrected line plus the formatted reply. -/
theorem findandreplace_eq (store : Store) (t : Trigger) (hist : List String)
    (hpm : t.is_privmsg = false)
    (hh : historyOf store t.sender (t.nickGroup.getD t.nick) = some hist) :
    findandreplace store t =
      match scanHistory (buildRepl t) hist with
      | none => (store, none)
      | some (me, p) =>
        if p = "" then (store, none)
        else
          (memSet store t.sender
            (memSet ((memGet store t.sender).getD []) (t.nickGroup.getD t.nick)
              ((((if me then "\x01ACTION " else "") ++ p) :: hist).take 10)),
           some (if t.nickGroup.isSome then
               t.nick ++ " thinks " ++ (t.nickGroup.getD t.nick) ++ " " ++
                 (if me then p else "meant to say: " ++ p)
             else
               t.nick ++ " " ++ (if me then p else "meant to say: " ++ p))) := by
  unfold findandreplace
  rw [hpm]
  simp only [Bool.false_eq_true, if_false, hh]
  cases hist with
  | nil =>
    simp [scanHistory]
  | cons line rest =>
    simp only [List.isEmpty_cons, if_false]
    rcases hscan : scanHistory (buildRepl t) (line :: rest) with _ | ⟨me, p⟩
    · simp
    · by_cases hp : p = ""
      · simp [hp]
      · simp [hp]

/-- A value produced by `memGet` is stored in the mapping. -/
theorem memGet_mem {V : Type} {m : IdMemory V} {k : String} {v : V}
    (h : memGet m k = some v) : ∃ e ∈ m, e.2 = v := by
  unfold memGet at h
  rcases hf : m.find? (fun p => decide (fold1459 p.1 = fold1459 k)) with _ | e
  · rw [hf] at h
    simp at h
  · rw [hf] at h
    simp only [Option.map_some'] at h
    exact ⟨e, List.mem_of_find?_eq_some hf, by injection h⟩

/-- Recording a non-directive, non-action line pushes it to the front of
the (possibly fresh) buffer, truncated to the 10-entry bound. -/
theorem record_histD (store : Store) (ch nick l : String) (hl : cleanLine l) :
    historyOf (record store ch nick l) ch nick =
      some ((l :: histD store ch nick).take 10) := by
  unfold record
  rw [if_neg (by rw [hl.1, hl.2.1]; simp)]
  have hstored : (if strStarts l "\x01ACTION" = true then strDropLast l else l) = l := by
    rw [hl.2.2]
    simp
  unfold historyOf
  rw [memGet_set _ _ _ _ rfl]
  show memGet (memSet ((memGet store ch).getD []) nick _) nick = _
  rw [memGet_set _ _ _ _ rfl, hstored]
  have hbuf : (memGet ((memGet store ch).getD []) nick).getD [] = histD store ch nick := by
    unfold histD historyOf
    rcases hc : memGet store ch with _ | c
    · simp [memGet]
    · simp
  rw [hbuf]

/-- Recording preserves the 10-entry bound of every buffer in the store. -/
theorem record_bounded (store : Store) (ch nick line : String)
    (hb : boundedStore store) : boundedStore (record store ch nick line) := by
  unfold record
  by_cases hd : (strStarts line "s/" = true ∨ strStarts line "s|" = true)
  · rw [if_pos hd]
    exact hb
  · rw [if_neg hd]
    intro p hp q hq
    rcases mem_memSet hp with hpm | hpv
    · exact hb p hpm q hq
    · rw [hpv] at hq
      rcases mem_memSet hq with hqm | hqv
      · rcases hchan : memGet store ch with _ | c
        · rw [hchan] at hqm
          simp at hqm
        · rw [hchan] at hqm
          obtain ⟨e, he, hev⟩ := memGet_mem hchan
          refine hb e he q ?_
          rw [hev]
          exact hqm
      · rw [hqv, List.length_take]
        exact min_le_left _ _

/-- Taking the bound after pushing commutes with an already-truncated
suffix. -/
theorem take_append_take (x y : List String) :
    (x ++ y.take 10).take 10 = (x ++ y).take 10 := by
  rw [List.take_append_eq_append_take, List.take_append_eq_append_take, List.take_take]
  congr 1
  rw [Nat.min_def]
  split
  · rfl
  · omega

/-- Folding `record` over a list of clean lines accumulates them in front,
truncated to the bound. -/
theorem recordAll_histD (ch nick : String) :
    ∀ (ls : List String) (store : Store), (∀ l ∈ ls, cleanLine l) →
      (histD store ch nick).length ≤ 10 →
      histD (recordAll store ch nick ls) ch nick =
        (ls.reverse ++ histD store ch nick).take 10 := by
  intro ls
  induction ls with
  | nil =>
    intro store _ hlen
    simp [recordAll, List.take_of_length_le hlen]
  | cons l ls' ih =>
    intro store hcl hlen
    show histD (recordAll (record store ch nick l) ch nick ls') ch nick = _
    have hrec : histD (record store ch nick l) ch nick =
        (l :: histD store ch nick).take 10 := by
      unfold histD
      rw [record_histD store ch nick l (hcl l (List.mem_cons_self l ls'))]
      rfl
    rw [ih (record store ch nick l) (fun x hx => hcl x (List.mem_cons_of_mem l hx))
      (by rw [hrec, List.length_take]; exact min_le_left _ _)]
    rw [hrec, take_append_take, List.reverse_cons, List.append_assoc]
    rfl

/-- After recording at least one clean line the history entry exists. -/
theorem recordAll_isSome (ch nick : String) :
    ∀ (ls : List String) (store : Store), (∀ l ∈ ls, cleanLine l) → ls ≠ [] →
      (historyOf (recordAll store ch nick ls) ch nick).isSome = true := by
  intro ls
  induction ls with
  | nil =>
    intro store _ h
    exact absurd rfl h
  | cons l ls' ih =>
    intro store hcl _
    cases ls' with
    | nil =>
      show (historyOf (record store ch nick l) ch nick).isSome = true
      rw [record_histD store ch nick l (hcl l (List.mem_cons_self l []))]
      rfl
    | cons l2 ls'' =>
      show (historyOf (recordAll (record store ch nick l) ch nick (l2 :: ls'')) ch
        nick).isSome = true
      exact ih (record store ch nick l)
        (fun x hx => hcl x (List.mem_cons_of_mem l hx)) (by simp)

/-- When the substitution leaves every (action-stripped) line unchanged the
scan finds nothing. -/
theorem scanHistory_none (repl : String → String) :
    ∀ hist : List String, (∀ l ∈ hist, repl (stripAction l).2 = (stripAction l).2) →
      scanHistory repl hist = none := by
  intro hist
  induction hist with
  | nil =>
    intro _
    rfl
  | cons l rest ih =>
    intro hall
    have hstep : scanHistory repl (l :: rest) =
        if repl (stripAction l).2 ≠ (stripAction l).2 then
          some ((stripAction l).1, repl (stripAction l).2)
        else scanHistory repl rest := rfl
    rw [hstep, if_neg (not_ne_iff.mpr (hall l (List.mem_cons_self l rest)))]
    exact ih (fun x hx => hall x (List.mem_cons_of_mem l hx))

/-- Outcome of `findandreplace` when the scan finds nothing. -/
theorem findandreplace_scan_none (store : Store) (t : Trigger) (hist : List String)
    (hpm : t.is_privmsg = false)
    (hh : historyOf store t.sender (t.nickGroup.getD t.nick) = some hist)
    (hscan : scanHistory (buildRepl t) hist = none) :
    findandreplace store t = (store, none) := by
  rw [findandreplace_eq store t hist hpm hh, hscan]

/-- Outcome of `findandreplace` when the selected line is replaced by the
empty string. -/
theorem findandreplace_scan_empty (store : Store) (t : Trigger) (hist : List String)
    (me : Bool)
    (hpm : t.is_privmsg = false)
    (hh : historyOf store t.sender (t.nickGroup.getD t.nick) = some hist)
    (hscan : scanHistory (buildRepl t) hist = some (me, "")) :
    findandreplace store t = (store, none) := by
  rw [findandreplace_eq store t hist hpm hh, hscan]
  rfl

/-- Outcome of `findandreplace` on a successful non-empty replacement. -/
theorem findandreplace_scan_some (store : Store) (t : Trigger) (hist : List String)
    (me : Bool) (p : String)
    (hpm : t.is_privmsg = false)
    (hh : historyOf store t.sender (t.nickGroup.getD t.nick) = some hist)
    (hscan : scanHistory (buildRepl t) hist = some (me, p))
    (hp : p ≠ "") :
    findandreplace store t =
      (memSet store t.sender
        (memSet ((memGet store t.sender).getD []) (t.nickGroup.getD t.nick)
          ((((if me then "\x01ACTION " else "") ++ p) :: hist).take 10)),
       some (if t.nickGroup.isSome then
           t.nick ++ " thinks " ++ (t.nickGroup.getD t.nick) ++ " " ++
             (if me then p else "meant to say: " ++ p)
         else
           t.nick ++ " " ++ (if me then p else "meant to say: " ++ p))) := by
  rw [findandreplace_eq store t hist hpm hh, hscan]
  show (if p = "" then (store, none) else _) = _
  rw [if_neg hp]

/-! ### Claim theorems -/

/-- C1: for every correction directive with a matching target history that
produces a reply, the engine has scanned the buffered lines newest-first
and selected the first line whose (action-stripped) substituted result
differs from the original — every more recent line is left unchanged by the
substitution — and the updated store holds exactly that one substituted
line pushed in front of the otherwise untouched buffer (bounded at 10);
the `g` flag enters only through the per-line substitution function, never
through the selection or the write-back. -/
theorem c1_first_match_selection (store : Store) (t : Trigger) (hist : List String)
    (phrase : String)
    (hpm : t.is_privmsg = false)
    (hh : historyOf store t.sender (t.nickGroup.getD t.nick) = some hist)
    (hout : (findandreplace store t).2 = some phrase) :
    ∃ i : Nat, ∃ hi : i < hist.length,
      buildRepl t (stripAction (hist.get ⟨i, hi⟩)).2 ≠ (stripAction (hist.get ⟨i, hi⟩)).2 ∧
      (∀ j, ∀ hj : j < hist.length, j < i →
        buildRepl t (stripAction (hist.get ⟨j, hj⟩)).2 = (stripAction (hist.get ⟨j, hj⟩)).2) ∧
      historyOf (findandreplace store t).1 t.sender (t.nickGroup.getD t.nick) =
        some ((((if (stripAction (hist.get ⟨i, hi⟩)).1 then "\x01ACTION " else "") ++
          buildRepl t (stripAction (hist.get ⟨i, hi⟩)).2) :: hist).take 10) := by
  rcases hscan : scanHistory (buildRepl t) hist with _ | ⟨me, p⟩
  · rw [findandreplace_scan_none store t hist hpm hh hscan] at hout
    exact Option.noConfusion hout
  · by_cases hp : p = ""
    · rw [hp] at hscan
      rw [findandreplace_scan_empty store t hist me hpm hh hscan] at hout
      exact Option.noConfusion hout
    · obtain ⟨i, hi, hme, hpv, hne, hbefore⟩ := scanHistory_some hscan
      refine ⟨i, hi, ?_, hbefore, ?_⟩
      · rw [← hpv]
        exact hne
      · rw [findandreplace_scan_some store t hist me p hpm hh hscan hp]
        show historyOf (memSet store t.sender _) t.sender (t.nickGroup.getD t.nick) = _
        unfold historyOf
        rw [memGet_set _ _ _ _ rfl]
        show memGet (memSet _ (t.nickGroup.getD t.nick) _) (t.nickGroup.getD t.nick) = _
        rw [memGet_set _ _ _ _ rfl, ← hme, ← hpv]

/-- C1 witness: speaker said "the cat sat" and then "cat cat cat"; the
directive `s/cat/dog/g` selects the newest line (index 0), replaces all
three occurrences within it (each emphasized), leaves the older matching
line untouched in the buffer, and stops the scan there. -/
theorem c1_first_match_selection_witness :
    historyOf [("#chan", [("Alice", ["cat cat cat", "the cat sat"])])] "#chan" "Alice" =
      some ["cat cat cat", "the cat sat"] ∧
    (findandreplace [("#chan", [("Alice", ["cat cat cat", "the cat sat"])])]
        ⟨"Alice", "#chan", none, '/', "cat", "dog", "g", false⟩).2 =
      some "Alice meant to say: \x02dog\x02 \x02dog\x02 \x02dog\x02" ∧
    (∃ i : Nat, ∃ hi : i < (["cat cat cat", "the cat sat"] : List String).length,
      buildRepl ⟨"Alice", "#chan", none, '/', "cat", "dog", "g", false⟩
          (stripAction ((["cat cat cat", "the cat sat"] : List String).get ⟨i, hi⟩)).2 ≠
        (stripAction ((["cat cat cat", "the cat sat"] : List String).get ⟨i, hi⟩)).2 ∧
      (∀ j, ∀ hj : j < (["cat cat cat", "the cat sat"] : List String).length, j < i →
        buildRepl ⟨"Alice", "#chan", none, '/', "cat", "dog", "g", false⟩
            (stripAction ((["cat cat cat", "the cat sat"] : List String).get ⟨j, hj⟩)).2 =
          (stripAction ((["cat cat cat", "the cat sat"] : List String).get ⟨j, hj⟩)).2) ∧
      historyOf (findandreplace [("#chan", [("Alice", ["cat cat cat", "the cat sat"])])]
          ⟨"Alice", "#chan", none, '/', "cat", "dog", "g", false⟩).1 "#chan" "Alice" =
        some ((((if (stripAction
              ((["cat cat cat", "the cat sat"] : List String).get ⟨i, hi⟩)).1
            then "\x01ACTION " else "") ++
          buildRepl ⟨"Alice", "#chan", none, '/', "cat", "dog", "g", false⟩
            (stripAction ((["cat cat cat", "the cat sat"] : List String).get ⟨i, hi⟩)).2) ::
          ["cat cat cat", "the cat sat"]).take 10)) ∧
    stripEmph "\x02dog\x02 \x02dog\x02 \x02dog\x02" = "dog dog dog" := by
  refine ⟨rfl, rfl, ?_, rfl⟩
  exact c1_first_match_selection [("#chan", [("Alice", ["cat cat cat", "the cat sat"])])]
    ⟨"Alice", "#chan", none, '/', "cat", "dog", "g", false⟩
    ["cat cat cat", "the cat sat"]
    "Alice meant to say: \x02dog\x02 \x02dog\x02 \x02dog\x02" rfl rfl rfl

/-- C2 counterexample: after Alice's "I like cats" and her `s/cats/dogs/`,
the newest history entry is the corrected text with the replacement still
bold-emphasized — not the plain text "I like dogs" the claim asserts. -/
theorem c2_counterexample :
    historyOf (findandreplace (record [] "#chan" "Alice" "I like cats")
        ⟨"Alice", "#chan", none, '/', "cats", "dogs", "", false⟩).1 "#chan" "Alice" =
      some ["I like \x02dogs\x02", "I like cats"] ∧
    ("I like \x02dogs\x02" : String) ≠ "I like dogs" := by
  exact ⟨rfl, by decide⟩

/-- C2 (amended): in scenario A the engine emits exactly one reply,
"Alice meant to say: I like 〈bold〉dogs〈bold〉" with the replacement
emphasized, and pushes the corrected line — emphasis markers included — to
the front of Alice's buffer via the bounded push. -/
theorem c2_scenario_a :
    findandreplace (record [] "#chan" "Alice" "I like cats")
        ⟨"Alice", "#chan", none, '/', "cats", "dogs", "", false⟩ =
      ([("#chan", [("Alice", ["I like \x02dogs\x02", "I like cats"])])],
        some "Alice meant to say: I like \x02dogs\x02") ∧
    ("I like \x02dogs\x02" : String) = "I like " ++ bold "dogs" ∧
    stripEmph "I like \x02dogs\x02" = "I like dogs" := by
  exact ⟨rfl, rfl, rfl⟩

/-- C3 counterexample: the escape `\|` inside a slash-delimited directive
is an escape sequence the decode table does not recognize, yet the engine
does not reject the directive: the substitution is attempted, a reply is
emitted and the history is mutated, contradicting the claimed
reject-with-untouched-state behaviour. -/
theorem c3_counterexample :
    (findandreplace [("#chan", [("Alice", ["a\\|b"])])]
        ⟨"Alice", "#chan", none, '/', "\\|", "X", "", false⟩).2 =
      some "Alice meant to say: a\x02X\x02b" ∧
    historyOf (findandreplace [("#chan", [("Alice", ["a\\|b"])])]
        ⟨"Alice", "#chan", none, '/', "\\|", "X", "", false⟩).1 "#chan" "Alice" =
      some ["a\x02X\x02b", "a\\|b"] ∧
    (some ["a\x02X\x02b", "a\\|b"] : Option (List String)) ≠ some ["a\\|b"] := by
  exact ⟨rfl, rfl, by decide⟩

/-- C3 (amended): an escape sequence the pattern `\\[\\<sep>]` does not
recognize (here `\|` under the `/` separator) passes through the decode
step literally, and the engine then processes the directive normally — no
crash, substitution attempted on the literal two-character text, history
updated by the usual push-back. -/
theorem c3_unrecognized_escape_passthrough :
    decodeStr '/' "\\|" = "\\|" ∧
    findandreplace [("#chan", [("Alice", ["a\\|b"])])]
        ⟨"Alice", "#chan", none, '/', "\\|", "X", "", false⟩ =
      ([("#chan", [("Alice", ["a\x02X\x02b", "a\\|b"])])],
        some "Alice meant to say: a\x02X\x02b") := by
  exact ⟨rfl, rfl⟩

/-- C4 counterexample: Alice corrects her own line while naming herself as
explicit target (`Alice: s/cats/dogs/`); the claim says an author
correcting their own line gets the plain "meant to say" reply, but the code
wraps in the third-person "thinks" form whenever an explicit target is
present, even when it equals the author. -/
theorem c4_counterexample :
    (findandreplace (record [] "#chan" "Alice" "I like cats")
        ⟨"Alice", "#chan", some "Alice", '/', "cats", "dogs", "", false⟩).2 =
      some "Alice thinks Alice meant to say: I like \x02dogs\x02" ∧
    (some "Alice thinks Alice meant to say: I like \x02dogs\x02" : Option String) ≠
      some "Alice meant to say: I like \x02dogs\x02" := by
  exact ⟨rfl, by decide⟩

/-- C4 (amended): every reply the engine emits is wrapped in the
third-person `"<author> thinks <target> <body>"` form exactly when the
directive carried an explicit target capture — whether or not that target
differs from the author — and is `"<author> <body>"` otherwise. -/
theorem c4_thinks_wrapper (store : Store) (t : Trigger) (phrase : String)
    (hout : (findandreplace store t).2 = some phrase) :
    ∃ body : String,
      phrase = (if t.nickGroup.isSome then
          t.nick ++ " thinks " ++ (t.nickGroup.getD t.nick) ++ " " ++ body
        else t.nick ++ " " ++ body) := by
  cases hb : t.is_privmsg with
  | true =>
    unfold findandreplace at hout
    rw [hb] at hout
    simp at hout
  | false =>
    rcases hhist : historyOf store t.sender (t.nickGroup.getD t.nick) with _ | hist
    · unfold findandreplace at hout
      rw [hb] at hout
      simp only [Bool.false_eq_true, if_false, hhist] at hout
      simp at hout
    · rcases hscan : scanHistory (buildRepl t) hist with _ | ⟨me, p⟩
      · rw [findandreplace_scan_none store t hist hb hhist hscan] at hout
        exact Option.noConfusion hout
      · by_cases hp : p = ""
        · rw [hp] at hscan
          rw [findandreplace_scan_empty store t hist me hb hhist hscan] at hout
          exact Option.noConfusion hout
        · rw [findandreplace_scan_some store t hist me p hb hhist hscan hp] at hout
          exact ⟨if me then p else "meant to say: " ++ p, (Option.some.inj hout).symm⟩

/-- C4 witness (scenario D): Bob corrects Alice and the reply takes the
"thinks" form. -/
theorem c4_thinks_wrapper_witness :
    (findandreplace (record [] "#chan" "Alice" "I like cats")
        ⟨"Bob", "#chan", some "Alice", '/', "cats", "dogs", "", false⟩).2 =
      some "Bob thinks Alice meant to say: I like \x02dogs\x02" ∧
    (∃ body : String,
      "Bob thinks Alice meant to say: I like \x02dogs\x02" =
        (if (some "Alice" : Option String).isSome then
          "Bob" ++ " thinks " ++ ((some "Alice" : Option String).getD "Bob") ++ " " ++ body
        else "Bob" ++ " " ++ body)) ∧
    stripEmph "Bob thinks Alice meant to say: I like \x02dogs\x02" =
      "Bob thinks Alice meant to say: I like dogs" := by
  refine ⟨rfl, ?_, rfl⟩
  exact c4_thinks_wrapper (record [] "#chan" "Alice" "I like cats")
    ⟨"Bob", "#chan", some "Alice", '/', "cats", "dogs", "", false⟩
    "Bob thinks Alice meant to say: I like \x02dogs\x02" rfl

/-- C5: setting a key stores a value retrievable and containable under any
fold-equal casing variant, both as a plain string and as an Identifier
probe; a `none` probe and a probe fold-equal to no stored key answer
`false` without error. -/
theorem c5_mapping_case_insensitive {V : Type} (m : IdMemory V) (k k' : String) (v : V)
    (hvar : fold1459 k' = fold1459 k) :
    memGet (memSet m k v) k' = some v ∧
    memContains (memSet m k v) (some k') = true ∧
    memGetId (memSet m k v) ⟨k'⟩ = some v ∧
    memContainsId (memSet m k v) ⟨k'⟩ = true ∧
    memContains (memSet m k v) none = false ∧
    ∀ p : String, (∀ q ∈ memSet m k v, fold1459 q.1 ≠ fold1459 p) →
      memContains (memSet m k v) (some p) = false := by
  exact ⟨memGet_set m k k' v hvar, memContains_set m k k' v hvar,
    memGet_set m k k' v hvar, memContains_set m k k' v hvar,
    memContains_none _, fun p hp => memContains_false _ p hp⟩

/-- C5 witness: the `Exirel`/`EXIREL`/`exirel` scenario of the tests, with
the `exi` non-key and the `none` probe both answering `false`. -/
theorem c5_mapping_case_insensitive_witness :
    memGet (memSet ([] : IdMemory String) "Exirel" "king") "EXIREL" = some "king" ∧
    memContains (memSet ([] : IdMemory String) "Exirel" "king") (some "EXIREL") = true ∧
    memGetId (memSet ([] : IdMemory String) "Exirel" "king") ⟨"EXIREL"⟩ = some "king" ∧
    memContainsId (memSet ([] : IdMemory String) "Exirel" "king") ⟨"EXIREL"⟩ = true ∧
    memContains (memSet ([] : IdMemory String) "Exirel" "king") none = false ∧
    memContains (memSet ([] : IdMemory String) "Exirel" "king") (some "exi") = false := by
  have h := c5_mapping_case_insensitive ([] : IdMemory String) "Exirel" "EXIREL" "king"
    (by decide)
  exact ⟨h.1, h.2.1, h.2.2.1, h.2.2.2.1, h.2.2.2.2.1,
    h.2.2.2.2.2 "exi" (by decide)⟩

/-- C6: recording never grows any buffer past 10 entries, and recording 15
clean lines for one speaker leaves exactly the 10 most recent ones,
newest-first. -/
theorem c6_history_bound :
    (∀ (store : Store) (ch nick line : String), boundedStore store →
      boundedStore (record store ch nick line)) ∧
    (∀ (ls : List String) (ch nick : String), ls.length = 15 →
      (∀ l ∈ ls, cleanLine l) →
      historyOf (recordAll [] ch nick ls) ch nick = some (ls.reverse.take 10) ∧
      (ls.reverse.take 10).length = 10) := by
  constructor
  · exact record_bounded
  · intro ls ch nick hlen hcl
    constructor
    · have hsome := recordAll_isSome ch nick ls [] hcl
        (by intro h; rw [h] at hlen; simp at hlen)
      have hd := recordAll_histD ch nick ls [] hcl (by simp [histD, historyOf, memGet])
      obtain ⟨val, hval⟩ := Option.isSome_iff_exists.mp hsome
      rw [hval]
      have hvd : val = histD (recordAll [] ch nick ls) ch nick := by
        unfold histD
        rw [hval]
        rfl
      rw [hvd, hd]
      have hempty : histD ([] : Store) ch nick = [] := rfl
      rw [hempty, List.append_nil]
    · rw [List.length_take, List.length_reverse, hlen]
      decide

/-- C6 witness: fifteen concrete lines leave exactly the ten most recent,
newest-first, and recording preserves boundedness of a concrete store. -/
theorem c6_history_bound_witness :
    (historyOf (recordAll [] "#c" "n"
        ["l1", "l2", "l3", "l4", "l5", "l6", "l7", "l8", "l9", "l10",
         "l11", "l12", "l13", "l14", "l15"]) "#c" "n" =
      some ["l15", "l14", "l13", "l12", "l11", "l10", "l9", "l8", "l7", "l6"]) ∧
    boundedStore (record [("#c", [("n", ["a"])])] "#c" "n" "b") := by
  constructor
  · have h := (c6_history_bound.2
      ["l1", "l2", "l3", "l4", "l5", "l6", "l7", "l8", "l9", "l10",
       "l11", "l12", "l13", "l14", "l15"] "#c" "n" rfl (by decide)).1
    exact h
  · exact c6_history_bound.1 [("#c", [("n", ["a"])])] "#c" "n" "b" (by decide)

/-- C7: when the substitution leaves every line of the target's buffer
unchanged, the engine is a silent no-op — no reply, and the store returned
is exactly the input store. -/
theorem c7_no_match_noop (store : Store) (t : Trigger) (hist : List String)
    (hpm : t.is_privmsg = false)
    (hh : historyOf store t.sender (t.nickGroup.getD t.nick) = some hist)
    (hall : ∀ l ∈ hist, buildRepl t (stripAction l).2 = (stripAction l).2) :
    findandreplace store t = (store, none) := by
  rw [findandreplace_eq store t hist hpm hh, scanHistory_none (buildRepl t) hist hall]

/-- C7 witness: `s/zebras/x/` touches nothing in Alice's buffer, so the
engine replies nothing and returns the store unchanged. -/
theorem c7_no_match_noop_witness :
    (∀ l ∈ (["I like cats"] : List String),
      buildRepl ⟨"Alice", "#chan", none, '/', "zebras", "x", "", false⟩
        (stripAction l).2 = (stripAction l).2) ∧
    findandreplace [("#chan", [("Alice", ["I like cats"])])]
        ⟨"Alice", "#chan", none, '/', "zebras", "x", "", false⟩ =
      ([("#chan", [("Alice", ["I like cats"])])], none) := by
  refine ⟨by decide, ?_⟩
  exact c7_no_match_noop [("#chan", [("Alice", ["I like cats"])])]
    ⟨"Alice", "#chan", none, '/', "zebras", "x", "", false⟩
    ["I like cats"] rfl rfl (by decide)

/-- C8: with the `i` flag the matcher is the case-insensitive
Unicode-aware literal substitution: the engine wires it to `re.sub` of the
escaped literal (template-processed replacement, count 1 when `g` is
absent, identity at the observable interface when the template does not
parse); any character pair that folds equal under the Unicode lowercase
tables matches; any change the count-1 substitution makes replaces exactly
the leftmost matching occurrence of the literal old text (metacharacters
match themselves), inserting the expanded template; without `i` the matcher
is the exact literal substring replace, likewise replacing only the
leftmost occurrence at count 1. -/
theorem c8_iflag_matcher (t : Trigger) :
    (strContains t.flags 'i' = true → ∀ s : String,
      buildRepl t s = ciReplaceStr (decodeStr t.sep t.old) (procNew t)
        (if strContains t.flags 'g' then -1 else 1) s) ∧
    (strContains t.flags 'i' = false → ∀ s : String,
      buildRepl t s = pyReplaceStr (decodeStr t.sep t.old) (procNew t)
        (if strContains t.flags 'g' then -1 else 1) s) ∧
    (∀ (old rep s : String) (count : Int) (items : List TemplItem),
      parseTemplate 0 rep.data = Except.ok items →
      ciReplaceStr old rep count s = ⟨ciSub old.data items count s.data⟩) ∧
    (∀ (old rep s : String) (count : Int) (e : String),
      parseTemplate 0 rep.data = Except.error e →
      ciReplaceStr old rep count s = s) ∧
    (∀ p x : Char, uniLowerNat p.toNat = uniLowerNat x.toNat → chrMatch p x = true) ∧
    (∀ (old s : List Char) (items : List TemplItem), old ≠ [] →
      ciSub old items 1 s ≠ s →
      ∃ a b c, s = a ++ b ++ c ∧ charsMatch old b = true ∧
        ciSub old items 1 s = a ++ expandTemplate items b ++ c ∧
        ∀ a' b' c', s = a' ++ b' ++ c' → charsMatch old b' = true →
          a.length ≤ a'.length) ∧
    (∀ (old rep s : List Char), old ≠ [] → pyRep old rep 1 s ≠ s →
      ∃ a b c, s = a ++ b ++ c ∧ b = old ∧
        pyRep old rep 1 s = a ++ rep ++ c ∧
        ∀ a' b' c', s = a' ++ b' ++ c' → b' = old → a.length ≤ a'.length) := by
  refine ⟨?_, ?_, ?_, ?_, ?_, ?_, ?_⟩
  · intro hi s
    unfold buildRepl
    rw [hi]
    simp
  · intro hi s
    unfold buildRepl
    rw [hi]
    simp
  · intro old rep s count items h
    unfold ciReplaceStr
    rw [h]
  · intro old rep s count e h
    unfold ciReplaceStr
    rw [h]
  · intro p x h
    simp [chrMatch, h]
  · intro old s items hold hch
    exact subst_one_first (fun l => ciPre old l) old.length (expandTemplate items)
      (fun mm => charsMatch old mm = true)
      (List.length_pos.mpr hold) (ciPre_iff old)
      (fun mm hmm => charsMatch_length hmm)
      s hch
  · intro old rep s hold hch
    exact subst_one_first (fun l => isPre old l) old.length (fun _ => rep)
      (fun mm => mm = old)
      (List.length_pos.mpr hold) (litPre_iff old)
      (fun mm hmm => by rw [hmm])
      s hch

set_option maxRecDepth 8192 in
/-- C8 witness: scenario B (`s/cats/rats/i` matches "Cats" despite the
case difference and replaces only that occurrence); a Unicode case
("ÉTUDE" corrected via the lowercase `étude`); the folded pair `é`/`É`
matching; the bolded template parsing into literals; template processing
visible through a `\g<0>` back-reference and an invalid `\1` reference
(which makes the engine an observable no-op); and the exact literal
replace without `i`. -/
theorem c8_iflag_matcher_witness :
    buildRepl ⟨"Alice", "#chan", none, '/', "cats", "rats", "i", false⟩
        "I like Cats AND Dogs" =
      ciReplaceStr (decodeStr '/' "cats")
        (procNew ⟨"Alice", "#chan", none, '/', "cats", "rats", "i", false⟩)
        1 "I like Cats AND Dogs" ∧
    buildRepl ⟨"Alice", "#chan", none, '/', "cats", "rats", "i", false⟩
        "I like Cats AND Dogs" = "I like \x02rats\x02 AND Dogs" ∧
    stripEmph "I like \x02rats\x02 AND Dogs" = "I like rats AND Dogs" ∧
    buildRepl ⟨"Alice", "#chan", none, '/', "étude", "study", "i", false⟩
        "ÉTUDE time" = "\x02study\x02 time" ∧
    chrMatch 'é' 'É' = true ∧
    parseTemplate 0 "\x02rats\x02".data =
      Except.ok [.lit '\x02', .lit 'r', .lit 'a', .lit 't', .lit 's', .lit '\x02'] ∧
    parseTemplate 0 ['\\', '1'] = Except.error "invalid group reference" ∧
    ciReplaceStr "cats" "[\\g<0>]" 1 "my CATS here" = "my [CATS] here" ∧
    findandreplace [("#chan", [("Alice", ["abc"])])]
        ⟨"Alice", "#chan", none, '/', "a", "\\1", "i", false⟩ =
      ([("#chan", [("Alice", ["abc"])])], none) ∧
    (∃ a b c, "I like Cats AND Dogs".data = a ++ b ++ c ∧
      charsMatch "cats".data b = true ∧
      ciSub "cats".data
          [.lit '\x02', .lit 'r', .lit 'a', .lit 't', .lit 's', .lit '\x02'] 1
          "I like Cats AND Dogs".data =
        a ++ expandTemplate
          [.lit '\x02', .lit 'r', .lit 'a', .lit 't', .lit 's', .lit '\x02'] b ++ c ∧
      ∀ a' b' c', "I like Cats AND Dogs".data = a' ++ b' ++ c' →
        charsMatch "cats".data b' = true → a.length ≤ a'.length) ∧
    buildRepl ⟨"A", "#c", none, '/', "b", "z", "", false⟩ "abc" =
      pyReplaceStr (decodeStr '/' "b") (procNew ⟨"A", "#c", none, '/', "b", "z", "", false⟩)
        1 "abc" := by
  refine ⟨?_, rfl, rfl, rfl, ?_, rfl, rfl, rfl, rfl, ?_, ?_⟩
  · exact (c8_iflag_matcher ⟨"Alice", "#chan", none, '/', "cats", "rats", "i", false⟩).1
      rfl "I like Cats AND Dogs"
  · exact (c8_iflag_matcher ⟨"Alice", "#chan", none, '/', "cats", "rats", "i", false⟩
      ).2.2.2.2.1 'é' 'É' (by decide)
  · exact (c8_iflag_matcher ⟨"Alice", "#chan", none, '/', "cats", "rats", "i", false⟩
      ).2.2.2.2.2.1 "cats".data "I like Cats AND Dogs".data
      [.lit '\x02', .lit 'r', .lit 'a', .lit 't', .lit 's', .lit '\x02']
      (by decide) (by decide)
  · exact (c8_iflag_matcher ⟨"A", "#c", none, '/', "b", "z", "", false⟩).2.1
      rfl "abc"

/-- C9: a chat line beginning with `s/` or `s|` is never recorded — the
record operation returns the line-history store exactly as it was, no
channel entry, speaker entry or buffer element created or modified. -/
theorem c9_directive_never_recorded (store : Store) (sender nick line : String)
    (h : strStarts line "s/" = true ∨ strStarts line "s|" = true) :
    record store sender nick line = store := by
  unfold record
  rw [if_pos h]

/-- C9 witness: both directive prefixes on a populated store. -/
theorem c9_directive_never_recorded_witness :
    (strStarts "s/cats/dogs/" "s/" = true ∨ strStarts "s/cats/dogs/" "s|" = true) ∧
    record [("#chan", [("Alice", ["hello"])])] "#chan" "Alice" "s/cats/dogs/" =
      [("#chan", [("Alice", ["hello"])])] ∧
    record [("#chan", [("Alice", ["hello"])])] "#chan" "Alice" "s|x|y|" =
      [("#chan", [("Alice", ["hello"])])] := by
  refine ⟨Or.inl rfl, ?_, ?_⟩
  · exact c9_directive_never_recorded _ "#chan" "Alice" "s/cats/dogs/" (Or.inl rfl)
  · exact c9_directive_never_recorded _ "#chan" "Alice" "s|x|y|" (Or.inr rfl)

/-- C10: when the scan selects a line whose substituted result is the empty
string, the engine behaves as if nothing matched: no reply, store returned
unchanged — even though the substitution did change that line. -/
theorem c10_empty_result_noop (store : Store) (t : Trigger) (hist : List String)
    (me : Bool)
    (hpm : t.is_privmsg = false)
    (hh : historyOf store t.sender (t.nickGroup.getD t.nick) = some hist)
    (hscan : scanHistory (buildRepl t) hist = some (me, "")) :
    findandreplace store t = (store, none) :=
  findandreplace_scan_empty store t hist me hpm hh hscan

/-- C10 witness: newest line "x" and directive `s/x//` — the line does
change (to empty), yet the engine emits nothing and leaves the store as it
was. -/
theorem c10_empty_result_noop_witness :
    scanHistory (buildRepl ⟨"Alice", "#chan", none, '/', "x", "", "", false⟩) ["x"] =
      some (false, "") ∧
    findandreplace [("#chan", [("Alice", ["x"])])]
        ⟨"Alice", "#chan", none, '/', "x", "", "", false⟩ =
      ([("#chan", [("Alice", ["x"])])], none) := by
  refine ⟨rfl, ?_⟩
  exact c10_empty_result_noop [("#chan", [("Alice", ["x"])])]
    ⟨"Alice", "#chan", none, '/', "x", "", "", false⟩ ["x"] false rfl rfl rfl

end Sopel
